import Mathlib

/-!
Verification development for the fake-profile-detector analytical core.

The Python source is shallowly embedded in Lean 4:
* real numbers computed by the code are modelled as rationals (`ℚ`);
* `datetime` values are modelled as integer Unix seconds (`ℤ`); the
  `timedelta.days` operation is floor division by 86400;
* Python dictionaries that carry the merged feature mapping are modelled as
  functions `String → Option ℚ` (later assignment overrides, absent key is
  `none`, Python booleans stored in the mapping are their numeric values 0/1);
* fallible code paths return `Except String`;
* the handful of numeric primitives with no rational meaning (the float
  exponential `np.exp`, the float standard deviation `np.std`, the
  MD5-seeded pseudo-random draw of the image simulator, the MD5 hex digest,
  and the spam regular-expression engine) are opaque parameters collected in
  the `Primitives` structure; theorems assume only the facts that hold for
  the real primitives (e.g. `exp` is positive, `random.random()` is in
  `[0,1)`).
All definitions below are translated from the repository source; the only
spec-side definition is `specMutualRatio`, clearly marked.
-/

/-- Feature mapping: Python dict from feature name to numeric value.
Booleans stored by the source are modelled as 0/1 (Python `bool` is an
`int` subclass, and every downstream read is numeric). -/
abbrev FMap : Type := String → Option ℚ

/-- The empty dict. -/
def femp : FMap := fun _ => none

/-- `m[k] = v` (assignment, overriding any earlier value). -/
def fset (m : FMap) (k : String) (v : ℚ) : FMap :=
  fun k2 => if k2 = k then some v else m k2

/-- `m.get(k, d)`. -/
def fget (m : FMap) (k : String) (d : ℚ) : ℚ :=
  (m k).getD d

/-- `a.update(b)`: entries of `b` override entries of `a`. -/
def fmerge (a b : FMap) : FMap :=
  fun k => match b k with
  | some v => some v
  | none => a k

/-- A `creation_date` value as the three-format `strptime` cascade sees it:
a string matched by one of the formats `%Y-%m-%d`, `%Y-%m-%dT%H:%M:%S`,
`%Y/%m/%d` (denoting the parsed datetime, in Unix seconds), a string matched
by none of them (every `strptime` call raises `ValueError`, swallowed by the
inner `except`), or a non-string value (`strptime` raises `TypeError`,
caught only by the outer `except Exception`). -/
inductive DateVal where
  | parsable (t : ℤ)
  | badStr
  | nonStr
deriving DecidableEq, Repr

/-- A post `timestamp` value: a number (Unix seconds, `datetime.fromtimestamp`),
a string accepted by the timestamp parsing cascade (denoting the parsed
datetime), or a string rejected by the whole cascade. -/
inductive TSVal where
  | num (t : ℤ)
  | strParsable (t : ℤ)
  | strBad
deriving DecidableEq, Repr

/-- A post dictionary: the fields the core reads.  `get`-with-default-0
numeric fields are modelled directly as the number (absent ≡ 0); `shares`
keeps its presence bit because the feature extractor falls back to
`retweets` only when the `shares` key is absent. -/
structure Post where
  text : Option String := none
  caption : Option String := none
  timestamp : Option TSVal := none
  likes : ℚ := 0
  comments : ℚ := 0
  shares : Option ℚ := none
  retweets : ℚ := 0
  is_retweet : Bool := false
  source : Option String := none
deriving DecidableEq, Repr

/-- An element of the `posts` list: a dict or a bare string. -/
inductive PostItem where
  | dict (p : Post)
  | str (s : String)
deriving DecidableEq, Repr

/-- An element of a `followers` / `following` / `interactions` list:
a user dict (with optional `id`, `user_id`, `username` keys) or a bare
string id. -/
inductive UserRef where
  | udict (id user_id uname : Option String)
  | ustr (s : String)
deriving DecidableEq, Repr

/-- The profile dictionary: every field the analytical core reads.
`Option` marks fields whose presence the source tests (`in` / truthiness);
plain `Bool` models fields read only through truthiness. -/
structure Profile where
  username : Option String := none
  platform : Option String := none
  creation_date : Option DateVal := none
  bio : Option String := none
  external_url : Option String := none
  has_external_url : Bool := false
  followers_count : Option ℚ := none
  friend_count : Option ℚ := none
  following_count : Option ℚ := none
  post_count : Option ℚ := none
  posts : List PostItem := []
  followers : List UserRef := []
  following : List UserRef := []
  interactions : List UserRef := []
  verified : Bool := false
  is_verified : Bool := false
  is_private : Bool := false
  profile_pic_url : Option String := none
  location : Option String := none
  name : Option String := none
  display_name : Option String := none
  is_blue : Bool := false
  is_business_account : Bool := false
  has_highlights : Bool := false
  has_igtv : Bool := false
  page_likes_count : ℚ := 0
  work : Option String := none
  education : Option String := none
  relationship_status : Option String := none
  has_profile_details : Bool := false
deriving DecidableEq, Repr

/-- Truthiness of an optional string field (`None` and `""` are falsy). -/
def strTruthy (s : Option String) : Bool :=
  match s with
  | some x => x ≠ ""
  | none => false

/-- Opaque numeric primitives of the source, kept as parameters:
`exp` is `np.exp`; `std` is `np.std`; `rnd url` is the first
`random.random()` draw after `random.seed(int(md5(url),16) % 1000)` (both
image simulators re-seed identically, so they observe the same draw);
`md5h url` is `hashlib.md5(url).hexdigest()[:20]`; `spamHits text` is the
number of compiled spam regex patterns with a match in `text`. -/
structure Primitives where
  exp : ℚ → ℚ
  std : List ℚ → ℚ
  rnd : String → ℚ
  md5h : String → String
  spamHits : String → ℕ

/-- The facts about the opaque primitives that are true of the real ones and
that the bounds theorems need: the exponential is strictly positive and
`random.random()` lands in `[0, 1)`. -/
def Primitives.Valid (pr : Primitives) : Prop :=
  (∀ x : ℚ, 0 < pr.exp x) ∧ (∀ u : String, 0 ≤ pr.rnd u ∧ pr.rnd u < 1)

/- ## ContentAnalyzer (src/features/content_analyzer.py) -/

/-- `string.punctuation` (braces, backtick and quote written as escapes). -/
def punctuationChars : List Char :=
  "!\"#$%&\x27()*+,-./:;<=>?@[\\]^_\x60\x7b|\x7d~".data

/-- `_tokenize`: strip punctuation, split on whitespace, drop empties. -/
def tokenize (text : String) : List String :=
  ((String.mk (text.data.filter (fun c => ¬ punctuationChars.contains c))).split
    Char.isWhitespace).filter (fun w => w ≠ "")

/-- The fixed positive vocabulary of `_analyze_sentiment` (Python set:
duplicate literal `impressive` collapses). -/
def positiveWords : List String :=
  ["good", "great", "excellent", "amazing", "wonderful", "best",
   "love", "happy", "awesome", "nice", "fantastic", "beautiful",
   "perfect", "enjoy", "thanks", "thank", "appreciated", "like",
   "excited", "glad", "pleased", "impressive", "well"]

/-- The fixed negative vocabulary of `_analyze_sentiment`. -/
def negativeWords : List String :=
  ["bad", "terrible", "awful", "horrible", "worst", "hate",
   "dislike", "poor", "disappointed", "disappointing", "sucks",
   "suck", "sad", "angry", "upset", "unfortunate", "wrong",
   "never", "problem", "issue", "fail", "failed", "failure"]

/-- `_load_suspicious_keywords` (Python set literal; duplicates collapse). -/
def suspiciousKeywords : List String :=
  ["money", "cash", "earn", "income", "rich", "wealthy", "profit",
   "investment", "invest", "bitcoin", "crypto", "cryptocurrency",
   "forex", "trading", "trader", "stocks", "btc", "eth",
   "offer", "free", "discount", "deal", "promo", "promotion",
   "limited", "exclusive", "opportunity", "chance", "lifetime",
   "job", "career", "hiring", "remote", "work", "home", "online",
   "passive", "salary", "payday", "loan", "loans",
   "hot", "sexy", "dating", "date", "single", "chat", "meet",
   "hookup", "adult", "cam", "webcam", "girl", "girls", "boys",
   "click", "tap", "join", "register", "sign", "subscribe",
   "follow", "dm", "pm", "message", "contact", "link", "bio",
   "weight", "loss", "diet", "slim", "fat", "burn", "health",
   "pill", "supplement", "vitamin", "detox", "cleanse", "inches",
   "urgent", "hurry", "quick", "fast", "immediately", "now",
   "today", "tonight", "soon", "act", "action"]

/-- Total occurrences of positive words in the lowercased tokenized texts. -/
def positiveCount (texts : List String) : ℕ :=
  (texts.map (fun t => (tokenize t.toLower).countP
    (fun w => positiveWords.contains w))).sum

/-- Total occurrences of negative words in the lowercased tokenized texts. -/
def negativeCount (texts : List String) : ℕ :=
  (texts.map (fun t => (tokenize t.toLower).countP
    (fun w => negativeWords.contains w))).sum

/-- `_analyze_sentiment` (the `except` arm is unreachable for this total
embedding). -/
def analyze_sentiment (texts : List String) : ℚ :=
  let pc : ℕ := positiveCount texts
  let nc : ℕ := negativeCount texts
  let total : ℕ := pc + nc
  if total = 0 then 1/2
  else 1/2 + ((pc : ℚ) - (nc : ℚ)) / (2 * (total : ℚ))

/-- `_calculate_content_diversity`. -/
def calculate_content_diversity (texts : List String) : ℚ :=
  if texts = [] then 1
  else
    let allTokens : List String := (texts.map (fun t => tokenize t.toLower)).flatten
    if allTokens = [] then 1
    else
      let uniqueTokens : ℕ := allTokens.dedup.length
      let totalTokens : ℕ := allTokens.length
      if totalTokens = 0 then 1
      else
        let ttr : ℚ := (uniqueTokens : ℚ) / (totalTokens : ℚ)
        ttr * (1 - (1/2) * (1 / (1 + (texts.length : ℚ))))

/-- `_detect_spam_patterns`: per text, the number of patterns (of the 16
compiled regexes) with a match, accumulated across texts; the regex engine
itself is the opaque `spamHits` primitive. -/
def detect_spam_patterns (pr : Primitives) (texts : List String) : ℕ :=
  (texts.map (fun t => pr.spamHits t)).sum

/-- `_count_suspicious_keywords`: per text the tokens are deduplicated
(a Python `set`) before membership counting. -/
def count_suspicious_keywords (texts : List String) : ℕ :=
  (texts.map (fun t => (tokenize t.toLower).dedup.countP
    (fun w => suspiciousKeywords.contains w))).sum

/-- `_calculate_suspicious_score`. -/
def calculate_suspicious_score (sentiment_score content_diversity : ℚ)
    (spam_matches : ℕ) (keyword_ratio : ℚ) (post_count : ℕ) : ℚ :=
  let sentiment_factor : ℚ := 2 * |sentiment_score - 1/2|
  let diversity_factor : ℚ := 1 - content_diversity
  let spam_factor : ℚ :=
    if post_count > 0 then min 1 ((spam_matches : ℚ) / (post_count : ℚ)) else 0
  (1/10) * sentiment_factor + (35/100) * diversity_factor +
    (35/100) * spam_factor + (2/10) * min 1 (keyword_ratio * 10)

/-- Output dict of `ContentAnalyzer.analyze`; the last two keys are present
only on the full-analysis path. -/
structure ContentOut where
  performed : Bool
  sentiment_score : ℚ
  content_diversity : ℚ
  suspicious_content_score : ℚ
  spam_pattern_matches : ℚ
  suspicious_keywords_count : Option ℚ
  keyword_ratio : Option ℚ
deriving Repr

/-- Text extraction of `ContentAnalyzer.analyze`: dict posts contribute
their `text` (default `""`), string posts contribute themselves; texts that
are empty after `strip()` are dropped. -/
def contentTexts (posts : List PostItem) : List String :=
  (posts.map (fun item => match item with
    | PostItem.dict p => p.text.getD ""
    | PostItem.str s => s)).filter (fun t => t.trim ≠ "")

/-- `ContentAnalyzer.analyze`. -/
def content_analyze (pr : Primitives) (p : Profile) : ContentOut :=
  if p.posts = [] then
    { performed := false, sentiment_score := 1/2, content_diversity := 1,
      suspicious_content_score := 0, spam_pattern_matches := 0,
      suspicious_keywords_count := none, keyword_ratio := none }
  else
    let post_texts := contentTexts p.posts
    if post_texts = [] then
      { performed := false, sentiment_score := 1/2, content_diversity := 1,
        suspicious_content_score := 0, spam_pattern_matches := 0,
        suspicious_keywords_count := none, keyword_ratio := none }
    else
      let sentiment_score := analyze_sentiment post_texts
      let content_diversity := calculate_content_diversity post_texts
      let spam_pattern_matches := detect_spam_patterns pr post_texts
      let suspicious_keywords_count := count_suspicious_keywords post_texts
      let total_words : ℕ := (post_texts.map (fun t => (tokenize t).length)).sum
      let keyword_ratio : ℚ :=
        if total_words > 0 then (suspicious_keywords_count : ℚ) / (total_words : ℚ)
        else 0
      let suspicious_content_score := calculate_suspicious_score
        sentiment_score content_diversity spam_pattern_matches keyword_ratio
        post_texts.length
      { performed := true, sentiment_score := sentiment_score,
        content_diversity := content_diversity,
        suspicious_content_score := suspicious_content_score,
        spam_pattern_matches := (spam_pattern_matches : ℚ),
        suspicious_keywords_count := some (suspicious_keywords_count : ℚ),
        keyword_ratio := some keyword_ratio }

/-- The dict returned by `ContentAnalyzer.analyze`, as a feature mapping. -/
def contentMap (o : ContentOut) : FMap :=
  let m := fset femp "content_analysis_performed" (if o.performed then 1 else 0)
  let m := fset m "sentiment_score" o.sentiment_score
  let m := fset m "content_diversity" o.content_diversity
  let m := fset m "suspicious_content_score" o.suspicious_content_score
  let m := fset m "spam_pattern_matches" o.spam_pattern_matches
  let m := match o.suspicious_keywords_count with
    | some v => fset m "suspicious_keywords_count" v
    | none => m
  match o.keyword_ratio with
  | some v => fset m "keyword_ratio" v
  | none => m

/- ## ActivityAnalyzer (src/features/activity_analyzer.py) -/

/-- `timedelta.days`: floor of the elapsed seconds divided by 86400. -/
def daysSince (now t : ℤ) : ℤ :=
  (now - t).fdiv 86400

/-- The post-timestamp parsing loop shared verbatim by the activity analyzer
and the feature extractor: dict posts with a numeric timestamp or a string
accepted by the parsing cascade yield a datetime; everything else is
skipped. -/
def postTimestamps (posts : List PostItem) : List ℤ :=
  posts.filterMap (fun item => match item with
    | PostItem.dict post =>
      match post.timestamp with
      | some (TSVal.num t) => some t
      | some (TSVal.strParsable t) => some t
      | _ => none
    | PostItem.str _ => none)

/-- `datetime.hour` of a modelled datetime (always in `0..23`). -/
def hourOf (t : ℤ) : ℕ :=
  ((t.fdiv 3600) % 24).toNat

/-- `_calculate_posting_frequency`. -/
def calculate_posting_frequency (posts : List PostItem) (account_age_days : ℤ) : ℚ :=
  let d : ℤ := if account_age_days ≤ 0 then 1 else account_age_days
  (posts.length : ℚ) / (d : ℚ)

/-- `_calculate_engagement_rate` of the activity analyzer (note: unlike the
feature extractor it reads only the `shares` key, never `retweets`). -/
def calculate_engagement_rate (pr : Primitives) (posts : List PostItem) : ℚ :=
  let total_posts := posts.length
  if total_posts = 0 then 0
  else
    let total_engagement : ℚ := (posts.map (fun item => match item with
      | PostItem.dict post => post.likes + post.comments + post.shares.getD 0
      | PostItem.str _ => 0)).sum
    let avg_engagement_per_post := total_engagement / (total_posts : ℚ)
    1 / (1 + pr.exp (-(1/10) * (avg_engagement_per_post - 10)))

/-- `_analyze_posting_regularity`. -/
def analyze_posting_regularity (pr : Primitives) (timestamps : List ℤ) : ℚ :=
  if timestamps.length < 2 then 1/2
  else
    let sorted := List.insertionSort (fun a b => a ≤ b) timestamps
    let time_diffs : List ℚ :=
      List.zipWith (fun a b => ((a - b : ℤ) : ℚ)) sorted.tail sorted
    let mean_diff := time_diffs.sum / (time_diffs.length : ℚ)
    if mean_diff = 0 then 1
    else
      let cv := pr.std time_diffs / mean_diff
      max 0 (min 1 (1 - cv / 2))

/-- Posts falling in the 8-hour window of hours starting at `start`
(`sum(hour_counts[h % 24] for h in range(start_hour, start_hour + 8))`). -/
def windowPosts (hours : List ℕ) (start : ℕ) : ℕ :=
  ((List.range 8).map (fun i => hours.count ((start + i) % 24))).sum

/-- `_analyze_time_zone_consistency`. -/
def analyze_time_zone_consistency (timestamps : List ℤ) : ℚ :=
  if timestamps.length < 5 then 1/2
  else
    let hours := timestamps.map hourOf
    let total_posts := hours.length
    let max_window_posts := ((List.range 24).map (windowPosts hours)).foldl max 0
    (max_window_posts : ℚ) / (total_posts : ℚ)

/-- The `while` loop of `_detect_posting_bursts`, written with explicit fuel
so it is structural: each iteration either advances past the whole burst
(dropping `≥ 3` elements) or past one element, so `fuel = length` is always
enough.  The inner `while` that counts posts in the window is `takeWhile`
(it stops at the first timestamp beyond the window edge). -/
def burstScanFuel : ℕ → List ℤ → ℕ
  | 0, _ => 0
  | _, [] => 0
  | fuel + 1, t :: rest =>
    let l := t :: rest
    let window_posts := (l.takeWhile (fun x => decide (x ≤ t + 600))).length
    if window_posts ≥ 3 then 1 + burstScanFuel fuel (l.drop window_posts)
    else burstScanFuel fuel rest

/-- `_detect_posting_bursts`: bursts of `≥ 3` posts within a 10-minute
(600-second) window, greedy non-overlapping scan over sorted timestamps. -/
def detect_posting_bursts (timestamps : List ℤ) : ℕ :=
  if timestamps.length < 3 then 0
  else burstScanFuel timestamps.length (List.insertionSort (fun a b => a ≤ b) timestamps)

/-- `_calculate_activity_score`. -/
def calculate_activity_score (account_age_days : ℤ) (posts_per_day : ℚ)
    (posting_regularity : ℚ) (engagement_rate : ℚ)
    (time_zone_consistency : ℚ) (posting_bursts : ℕ) : ℚ :=
  let age_factor := max 0 (min 1 (1 - (account_age_days : ℚ) / 180))
  let frequency_factor :=
    if posts_per_day > 15 then min 1 ((posts_per_day - 15) / 10)
    else if posts_per_day < 5/100 then min 1 ((5/100 - posts_per_day) / (5/100))
    else 0
  let regularity_factor := if posting_regularity > 8/10 then posting_regularity else 0
  let engagement_factor := max 0 (min 1 (1 - engagement_rate * 10))
  let time_zone_factor := max 0 (min 1 (1 - time_zone_consistency))
  let burst_factor := min 1 ((posting_bursts : ℚ) / 5)
  (15/100) * age_factor + (2/10) * frequency_factor +
    (15/100) * regularity_factor + (25/100) * engagement_factor +
    (1/10) * time_zone_factor + (15/100) * burst_factor

/-- Output dict of `ActivityAnalyzer.analyze`; `account_age_days` and
`posting_bursts` are present only on the full-analysis path. -/
structure ActivityOut where
  performed : Bool
  account_age_days : Option ℤ
  posts_per_day : ℚ
  posting_regularity : ℚ
  time_zone_consistency : ℚ
  engagement_rate : ℚ
  posting_bursts : Option ℚ
  activity_score : ℚ
deriving Repr

/-- `ActivityAnalyzer.analyze`.  The creation-date handling: only a string
matched by one of the three formats yields a computed age; a missing date,
an unmatched string (all `ValueError`s swallowed) and a non-string value
(`TypeError` caught by the outer `except`) all keep the 365-day default. -/
def activity_analyze (pr : Primitives) (now : ℤ) (p : Profile) : ActivityOut :=
  if p.posts = [] then
    { performed := false, account_age_days := none, posts_per_day := 0,
      engagement_rate := 0, posting_regularity := 1/2, activity_score := 1/2,
      time_zone_consistency := 1/2, posting_bursts := none }
  else
    let account_age_days : ℤ := match p.creation_date with
      | some (DateVal.parsable t) => daysSince now t
      | _ => 365
    let posts_per_day := calculate_posting_frequency p.posts account_age_days
    let post_timestamps := postTimestamps p.posts
    let posting_regularity :=
      if post_timestamps ≠ [] then analyze_posting_regularity pr post_timestamps else 1/2
    let time_zone_consistency :=
      if post_timestamps ≠ [] then analyze_time_zone_consistency post_timestamps else 1/2
    let posting_bursts : ℕ :=
      if post_timestamps ≠ [] then detect_posting_bursts post_timestamps else 0
    let engagement_rate := calculate_engagement_rate pr p.posts
    let activity_score := calculate_activity_score account_age_days posts_per_day
      posting_regularity engagement_rate time_zone_consistency posting_bursts
    { performed := true, account_age_days := some account_age_days,
      posts_per_day := posts_per_day, posting_regularity := posting_regularity,
      time_zone_consistency := time_zone_consistency,
      engagement_rate := engagement_rate,
      posting_bursts := some (posting_bursts : ℚ),
      activity_score := activity_score }

/-- The dict returned by `ActivityAnalyzer.analyze`, as a feature mapping. -/
def activityMap (o : ActivityOut) : FMap :=
  let m := fset femp "activity_analysis_performed" (if o.performed then 1 else 0)
  let m := match o.account_age_days with
    | some v => fset m "account_age_days" (v : ℚ)
    | none => m
  let m := fset m "posts_per_day" o.posts_per_day
  let m := fset m "posting_regularity" o.posting_regularity
  let m := fset m "time_zone_consistency" o.time_zone_consistency
  let m := fset m "engagement_rate" o.engagement_rate
  let m := match o.posting_bursts with
    | some v => fset m "posting_bursts" v
    | none => m
  fset m "activity_score" o.activity_score

/- ## ImageAnalyzer (src/features/image_analyzer.py) -/

/-- Substring test on char lists. -/
def listContainsSub (l sub : List Char) : Bool :=
  l.tails.any (fun t => sub.isPrefixOf t)

/-- `sub in s` (Python substring containment). -/
def containsSub (s sub : String) : Bool :=
  listContainsSub s.data sub.data

/-- The default-image URL patterns of `_is_default_profile_picture`, with
each `[_-]?` regex alternation expanded into its three literal variants
(`re.search` + `IGNORECASE` = case-insensitive substring search). -/
def defaultPicPatterns : List String :=
  ["defaultprofile", "default_profile", "default-profile",
   "defaultavatar", "default_avatar", "default-avatar",
   "profiledefault", "profile_default", "profile-default",
   "avatardefault", "avatar_default", "avatar-default",
   "placeholder",
   "noprofile", "no_profile", "no-profile",
   "nophoto", "no_photo", "no-photo",
   "anonymous",
   "defaultuser", "default_user", "default-user",
   "blankprofile", "blank_profile", "blank-profile"]

/-- `_is_default_profile_picture`. -/
def is_default_profile_picture (url : String) : Bool :=
  defaultPicPatterns.any (fun pat => containsSub url.toLower pat)

/-- `_load_known_fake_hashes`. -/
def knownFakeImageHashes : List String :=
  ["a1b2c3d4e5f6g7h8i9j0",
   "b2c3d4e5f6g7h8i9j0k1",
   "c3d4e5f6g7h8i9j0k1l2",
   "d4e5f6g7h8i9j0k1l2m3",
   "e5f6g7h8i9j0k1l2m3n4",
   "f6g7h8i9j0k1l2m3n4o5",
   "g7h8i9j0k1l2m3n4o5p6",
   "h8i9j0k1l2m3n4o5p6q7",
   "i9j0k1l2m3n4o5p6q7r8",
   "j0k1l2m3n4o5p6q7r8s9"]

/-- `_analyze_image`: the hash is the opaque MD5 prefix; the AI flag and the
quality score are both derived from the same seeded `random.random()` draw
(`rnd url`), because both simulators re-seed the PRNG with the same
URL-derived seed before drawing. -/
def analyze_image (pr : Primitives) (url : String) : Option String × Bool × Bool × ℚ :=
  let image_hash := pr.md5h url
  let is_stock := knownFakeImageHashes.contains image_hash
  let is_ai_generated := decide (pr.rnd url < 15/100)
  let quality_score : ℚ := 3/10 + pr.rnd url * (7/10)
  (some image_hash, is_stock, is_ai_generated, quality_score)

/-- `_calculate_profile_pic_score`. -/
def calculate_profile_pic_score (is_default is_stock is_ai_generated : Bool)
    (quality_score : ℚ) : ℚ :=
  let base_score : ℚ := 3/10 + (if is_default then 2/10 else 0) +
    (if is_stock then 3/10 else 0) + (if is_ai_generated then 4/10 else 0)
  let quality_factor := (1 - quality_score) * (2/10)
  min 1 (base_score + quality_factor)

/-- Output dict of `ImageAnalyzer.analyze`; the quality score and hash are
present only on the full-analysis path (`image_hash` is a string value and
is therefore not part of the numeric feature mapping; no downstream code
reads it). -/
structure ImageOut where
  performed : Bool
  profile_pic_score : ℚ
  is_default_image : Bool
  is_stock_photo : Bool
  is_ai_generated : Bool
  image_quality_score : Option ℚ
  image_hash : Option String
deriving Repr

/-- `ImageAnalyzer.analyze` (its `except` arm is unreachable: the simulated
analysis is total). -/
def image_analyze (pr : Primitives) (p : Profile) : ImageOut :=
  match p.profile_pic_url with
  | none =>
    { performed := false, profile_pic_score := 1/2, is_default_image := false,
      is_stock_photo := false, is_ai_generated := false,
      image_quality_score := none, image_hash := none }
  | some url =>
    if url = "" then
      { performed := false, profile_pic_score := 1/2, is_default_image := false,
        is_stock_photo := false, is_ai_generated := false,
        image_quality_score := none, image_hash := none }
    else
      let is_default := is_default_profile_picture url
      let r : Option String × Bool × Bool × ℚ :=
        if ¬ is_default then analyze_image pr url else (none, false, false, 1/2)
      let profile_pic_score := calculate_profile_pic_score is_default r.2.1 r.2.2.1 r.2.2.2
      { performed := true, profile_pic_score := profile_pic_score,
        is_default_image := is_default, is_stock_photo := r.2.1,
        is_ai_generated := r.2.2.1, image_quality_score := some r.2.2.2,
        image_hash := r.1 }

/-- The dict returned by `ImageAnalyzer.analyze`, as a feature mapping. -/
def imageMap (o : ImageOut) : FMap :=
  let m := fset femp "image_analysis_performed" (if o.performed then 1 else 0)
  let m := fset m "profile_pic_score" o.profile_pic_score
  let m := fset m "is_default_image" (if o.is_default_image then 1 else 0)
  let m := fset m "is_stock_photo" (if o.is_stock_photo then 1 else 0)
  let m := fset m "is_ai_generated" (if o.is_ai_generated then 1 else 0)
  match o.image_quality_score with
  | some v => fset m "image_quality_score" v
  | none => m

/- ## NetworkAnalyzer (src/features/network_analyzer.py) -/

/-- `_extract_user_ids`: user dicts yield the first truthy value among the
`id`, `user_id` and `username` keys; bare strings yield themselves. -/
def extract_user_ids (users_list : List UserRef) : List String :=
  users_list.filterMap (fun user => match user with
    | UserRef.udict id uid uname =>
      if strTruthy id then id
      else if strTruthy uid then uid
      else if strTruthy uname then uname
      else none
    | UserRef.ustr s => some s)

/-- The Python `set(...)` of extracted ids. -/
def idSet (users_list : List UserRef) : Finset String :=
  (extract_user_ids users_list).toFinset

/-- `_calculate_ratio`. -/
def calculate_ratio (followers following : ℚ) : ℚ :=
  if following = 0 then
    if followers = 0 then 1 else 100
  else followers / following

/-- `_estimate_isolation_from_counts`. -/
def estimate_isolation_from_counts (followers_count following_count : ℚ) : ℚ :=
  let follower_factor : ℚ :=
    if followers_count < 10 then 8/10
    else if followers_count < 50 then 5/10
    else if followers_count < 100 then 3/10
    else 1/10
  let following_factor : ℚ :=
    if following_count > 1000 ∧ followers_count < 100 then 7/10
    else if following_count > 500 ∧ followers_count < 50 then 6/10
    else 2/10
  (1/2) * follower_factor + (1/2) * following_factor

/-- `_calculate_network_isolation` (the `isinstance(..., list)` test is
always true here, so the count-based fallback arm of the source is
unreachable in this embedding). -/
def calculate_network_isolation (followers following interactions : List UserRef) : ℚ :=
  let follower_ids := idSet followers
  let following_ids := idSet following
  let interaction_ids := idSet interactions
  let followers_interacted : ℕ := (follower_ids ∩ interaction_ids).card
  let follower_interaction_ratio : ℚ :=
    if follower_ids.card > 0 then (followers_interacted : ℚ) / (follower_ids.card : ℚ)
    else 0
  let mutualCount : ℕ := (follower_ids ∩ following_ids).card
  let mutual_ratio : ℚ :=
    if following_ids.card > 0 then (mutualCount : ℚ) / (following_ids.card : ℚ)
    else 0
  1 - ((7/10) * mutual_ratio + (3/10) * follower_interaction_ratio)

/-- `_analyze_mutual_connections`. -/
def analyze_mutual_connections (followers following : List UserRef) : ℚ :=
  let follower_ids := idSet followers
  let following_ids := idSet following
  if following_ids = ∅ then 1/2
  else ((follower_ids ∩ following_ids).card : ℚ) / (following_ids.card : ℚ)

/-- `_estimate_clustering`. -/
def estimate_clustering (followers following interactions : List UserRef) : ℚ :=
  let follower_ids := idSet followers
  let following_ids := idSet following
  let interaction_ids := idSet interactions
  let follower_following_overlap : ℕ := (follower_ids ∩ following_ids).card
  let follower_interaction_overlap : ℕ := (follower_ids ∩ interaction_ids).card
  let following_interaction_overlap : ℕ := (following_ids ∩ interaction_ids).card
  let total_overlap : ℕ := follower_following_overlap +
    follower_interaction_overlap + following_interaction_overlap
  let total_size : ℕ := follower_ids.card + following_ids.card + interaction_ids.card
  if total_size = 0 then 1/2
  else
    let raw_clustering : ℚ := (total_overlap : ℚ) / (total_size : ℚ)
    5/100 + raw_clustering * (75/100)

/-- `_calculate_reciprocity`. -/
def calculate_reciprocity (followers following : List UserRef) : ℚ :=
  let follower_ids := idSet followers
  let following_ids := idSet following
  if following_ids = ∅ then 1/2
  else ((follower_ids ∩ following_ids).card : ℚ) / (following_ids.card : ℚ)

/-- `_calculate_network_score` (the `followers_ratio` parameter is accepted
and ignored, exactly as in the source, which recomputes the ratio). -/
def calculate_network_score (followers_ratio isolation_score mutual_ratio
    clustering reciprocity : ℚ) (followers_count following_count : ℚ) : ℚ :=
  let s1 : ℚ :=
    if followers_count < 10 then 3/10
    else if followers_count < 50 then 2/10
    else 0
  let s2 : ℚ :=
    if following_count > 0 then
      let following_to_follower := followers_count / following_count
      if following_to_follower < 1/10 then 25/100
      else if following_to_follower < 3/10 then 15/100
      else 0
    else 0
  let suspicion := s1 + s2 + isolation_score * (2/10) +
    (1 - mutual_ratio) * (15/100) + (1 - clustering) * (1/10) +
    (1 - reciprocity) * (1/10)
  min 1 suspicion

/-- Output dict of `NetworkAnalyzer.analyze`. -/
structure NetworkOut where
  performed : Bool
  followers_count : ℚ
  following_count : ℚ
  followers_to_following_ratio : ℚ
  network_isolation_score : ℚ
  mutual_connection_ratio : ℚ
  clustering_coefficient : ℚ
  reciprocity : ℚ
  network_score : ℚ
deriving Repr

/-- `NetworkAnalyzer.analyze`. -/
def network_analyze (p : Profile) : NetworkOut :=
  let followers_count := p.followers_count.getD 0
  let following_count := p.following_count.getD 0
  let followers_to_following_ratio := calculate_ratio followers_count following_count
  let network_isolation_score :=
    if p.followers ≠ [] ∨ p.following ≠ [] ∨ p.interactions ≠ [] then
      calculate_network_isolation p.followers p.following p.interactions
    else
      estimate_isolation_from_counts followers_count following_count
  let mutual_connection_ratio :=
    if p.followers ≠ [] ∧ p.following ≠ [] then
      analyze_mutual_connections p.followers p.following
    else 1/2
  let clustering_coefficient :=
    if p.followers ≠ [] ∧ p.following ≠ [] then
      estimate_clustering p.followers p.following p.interactions
    else 1/2
  let reciprocity :=
    if p.followers ≠ [] ∧ p.following ≠ [] then
      calculate_reciprocity p.followers p.following
    else 1/2
  let network_score := calculate_network_score followers_to_following_ratio
    network_isolation_score mutual_connection_ratio clustering_coefficient
    reciprocity followers_count following_count
  { performed := true, followers_count := followers_count,
    following_count := following_count,
    followers_to_following_ratio := followers_to_following_ratio,
    network_isolation_score := network_isolation_score,
    mutual_connection_ratio := mutual_connection_ratio,
    clustering_coefficient := clustering_coefficient,
    reciprocity := reciprocity, network_score := network_score }

/-- The dict returned by `NetworkAnalyzer.analyze`, as a feature mapping. -/
def networkMap (o : NetworkOut) : FMap :=
  let m := fset femp "network_analysis_performed" (if o.performed then 1 else 0)
  let m := fset m "followers_count" o.followers_count
  let m := fset m "following_count" o.following_count
  let m := fset m "followers_to_following_ratio" o.followers_to_following_ratio
  let m := fset m "network_isolation_score" o.network_isolation_score
  let m := fset m "mutual_connection_ratio" o.mutual_connection_ratio
  let m := fset m "clustering_coefficient" o.clustering_coefficient
  let m := fset m "reciprocity" o.reciprocity
  fset m "network_score" o.network_score

/- ## FeatureExtractor (src/utils/feature_extractor.py) -/

/-- Non-overlapping substring count (`str.count`), with structural fuel
(every use has a non-empty needle, so `fuel = length` suffices). -/
def countSubAux : ℕ → List Char → List Char → ℕ
  | 0, _, _ => 0
  | _, [], _ => 0
  | fuel + 1, c :: rest, sub =>
    if sub.isPrefixOf (c :: rest) then 1 + countSubAux fuel ((c :: rest).drop sub.length) sub
    else countSubAux fuel rest sub

/-- `s.count(sub)`. -/
def countSub (s sub : String) : ℕ :=
  countSubAux s.data.length s.data sub.data

/-- `_extract_account_metrics`.  The creation-date branch transcribes the
`'creation_date' in locals()` slip: when the date string matches none of
the three formats, no exception escapes the inner loop, the `locals()`
test fails, and NO `account_age_days` entry is written (the
`except`-branch default of 365 is reachable only for non-string values,
whose `strptime` call raises `TypeError`). -/
def extract_account_metrics (now : ℤ) (p : Profile) : FMap :=
  let features := femp
  let features := match p.creation_date with
    | none => fset features "account_age_days" 365
    | some (DateVal.parsable t) => fset features "account_age_days" ((daysSince now t : ℤ) : ℚ)
    | some DateVal.badStr => features
    | some DateVal.nonStr => fset features "account_age_days" 365
  let followers_count : ℚ := match p.followers_count with
    | some v => v
    | none => match p.friend_count with
      | some v => v
      | none => 0
  let following_count : ℚ := p.following_count.getD 0
  let features := fset features "followers_count" followers_count
  let features := fset features "following_count" following_count
  let features :=
    if following_count > 0 then
      fset features "followers_to_following_ratio" (followers_count / following_count)
    else
      fset features "followers_to_following_ratio" (if followers_count = 0 then 1 else 100)
  let features := match p.post_count with
    | some v => fset features "post_count" v
    | none => fset features "post_count" (p.posts.length : ℚ)
  features

/-- `_extract_activity_features`.  Two source slips are transcribed: the
function consults its own fresh local `features` dict (not the accumulated
one), so the `account_age_days` and `followers_count` lookups always miss
and `posts_per_day` and `engagement_rate` are always 0; and when at least
one post timestamp parses, the posting-time entropy computation calls the
nonexistent method `float.log`, raising `AttributeError` (so the whole
extraction, and the whole analysis, fails for such profiles). -/
def extract_activity_features (p : Profile) : Except String FMap :=
  let features : FMap := femp
  let features := match features "account_age_days" with
    | some age =>
      if age > 0 then fset features "posts_per_day" (fget features "post_count" 0 / age)
      else fset features "posts_per_day" 0
    | none => fset features "posts_per_day" 0
  let post_timestamps := postTimestamps p.posts
  if post_timestamps ≠ [] then
    Except.error "AttributeError: float object has no attribute log"
  else
    let features := fset features "median_hours_between_posts" 24
    let features := fset features "posting_time_entropy" 0
    let features := fset features "time_consistency" (1/2)
    let total_posts := p.posts.length
    let total_engagement : ℚ := (p.posts.map (fun item => match item with
      | PostItem.dict post => post.likes + post.comments +
        (match post.shares with
         | some s => s
         | none => post.retweets)
      | PostItem.str _ => 0)).sum
    let features :=
      if total_posts > 0 ∧ fget features "followers_count" 0 > 0 then
        fset features "engagement_rate"
          ((total_engagement / (total_posts : ℚ)) / fget features "followers_count" 0)
      else fset features "engagement_rate" 0
    Except.ok features

/-- Text extraction of `_extract_content_features`: dict posts contribute
`text or caption` when non-empty; bare string posts are appended
unconditionally. -/
def extractorPostTexts (posts : List PostItem) : List String :=
  posts.filterMap (fun item => match item with
    | PostItem.dict post =>
      let text := if post.text.getD "" ≠ "" then post.text.getD "" else post.caption.getD ""
      if text ≠ "" then some text else none
    | PostItem.str s => some s)

/-- The emoji indicator list of `_extract_content_features`. -/
def emojiIndicators : List String :=
  [":)", ":(", ":D", ";)", "❤️", "👍", "😊", "🙌", "🎉"]

/-- The URL indicator list of `_extract_content_features`. -/
def urlIndicators : List String :=
  ["http://", "https://", "www.", ".com", ".net", ".org"]

/-- `_extract_content_features`. -/
def extract_content_features (p : Profile) : FMap :=
  let features := femp
  let post_texts := extractorPostTexts p.posts
  let bio := p.bio.getD ""
  let features := fset features "bio_length" (if bio ≠ "" then (bio.length : ℚ) else 0)
  let features := fset features "has_external_url"
    (if strTruthy p.external_url ∨ p.has_external_url then 1 else 0)
  if post_texts ≠ [] then
    let n : ℚ := (post_texts.length : ℚ)
    let features := fset features "avg_post_length"
      (((post_texts.map (fun t => (t.length : ℚ))).sum) / n)
    let features := fset features "hashtags_per_post"
      (((post_texts.map (fun t => (countSub t "#" : ℚ))).sum) / n)
    let features := fset features "urls_per_post"
      (((post_texts.countP (fun t => urlIndicators.any
          (fun url => containsSub t.toLower url)) : ℚ)) / n)
    let features := fset features "mentions_per_post"
      (((post_texts.map (fun t => (countSub t "@" : ℚ))).sum) / n)
    let features := fset features "emojis_per_post"
      (((post_texts.map (fun t => ((emojiIndicators.map
          (fun e => countSub t e)).sum : ℚ))).sum) / n)
    features
  else
    let features := fset features "avg_post_length" 0
    let features := fset features "hashtags_per_post" 0
    let features := fset features "urls_per_post" 0
    let features := fset features "mentions_per_post" 0
    fset features "emojis_per_post" 0

/-- Longest run of consecutive digits in a username. -/
def maxConsecDigits (s : String) : ℕ :=
  (s.data.foldl (fun (acc : ℕ × ℕ) c =>
    if c.isDigit then (max acc.1 (acc.2 + 1), acc.2 + 1)
    else (acc.1, 0)) (0, 0)).1

/-- `_extract_profile_features`. -/
def extract_profile_features (p : Profile) : FMap :=
  let features := femp
  let features := fset features "is_verified"
    (if p.verified ∨ p.is_verified then 1 else 0)
  let features := fset features "is_private" (if p.is_private then 1 else 0)
  let username := p.username.getD ""
  let features :=
    if username ≠ "" then
      let features := fset features "username_length" (username.length : ℚ)
      let digit_count := (username.data.countP Char.isDigit : ℚ)
      let features := fset features "username_digit_ratio"
        (if username.length > 0 then digit_count / (username.length : ℚ) else 0)
      let features := fset features "username_underscore_count" (countSub username "_" : ℚ)
      fset features "username_max_consecutive_digits" (maxConsecDigits username : ℚ)
    else
      let features := fset features "username_length" 0
      let features := fset features "username_digit_ratio" 0
      let features := fset features "username_underscore_count" 0
      fset features "username_max_consecutive_digits" 0
  let filled_fields : ℕ :=
    (if strTruthy p.bio then 1 else 0) + (if strTruthy p.location then 1 else 0) +
    (if strTruthy p.profile_pic_url then 1 else 0) + (if strTruthy p.name then 1 else 0) +
    (if strTruthy p.display_name then 1 else 0)
  fset features "profile_completeness" ((filled_fields : ℚ) / 5)

/-- `_extract_twitter_features`. -/
def extract_twitter_features (p : Profile) : FMap :=
  let features := femp
  let retweet_count : ℕ := p.posts.countP (fun item => match item with
    | PostItem.dict post => post.is_retweet
    | PostItem.str _ => false)
  let features := fset features "retweet_ratio"
    (if p.posts ≠ [] then (retweet_count : ℚ) / (p.posts.length : ℚ) else 0)
  let features := fset features "has_default_profile_image"
    (if containsSub (p.profile_pic_url.getD "") "default_profile" then 1 else 0)
  let sources := p.posts.filterMap (fun item => match item with
    | PostItem.dict post => post.source
    | PostItem.str _ => none)
  let features := fset features "source_count" (sources.dedup.length : ℚ)
  fset features "is_twitter_blue" (if p.is_blue then 1 else 0)

/-- `_extract_instagram_features`. -/
def extract_instagram_features (p : Profile) : FMap :=
  let features := femp
  let features := fset features "is_business_account"
    (if p.is_business_account then 1 else 0)
  let features := fset features "has_highlights" (if p.has_highlights then 1 else 0)
  let features := fset features "has_igtv" (if p.has_igtv then 1 else 0)
  let post_count := p.post_count.getD 0
  let followers_count := p.followers_count.getD 0
  if followers_count > 0 then
    fset features "post_to_follower_ratio" (post_count / followers_count)
  else
    fset features "post_to_follower_ratio" 0

/-- `_extract_facebook_features`. -/
def extract_facebook_features (p : Profile) : FMap :=
  let features := femp
  let features := fset features "page_likes_count" p.page_likes_count
  let filled_detail_fields : ℕ :=
    (if strTruthy p.work then 1 else 0) + (if strTruthy p.education then 1 else 0) +
    (if strTruthy p.relationship_status then 1 else 0) +
    (if strTruthy p.location then 1 else 0)
  let features := fset features "profile_details_completeness" ((filled_detail_fields : ℚ) / 4)
  fset features "has_profile_details" (if p.has_profile_details then 1 else 0)

/-- `FeatureExtractor.extract_features`. -/
def extract_features (now : ℤ) (p : Profile) : Except String FMap :=
  let features := extract_account_metrics now p
  match extract_activity_features p with
  | Except.error e => Except.error e
  | Except.ok act =>
    let features := fmerge features act
    let features := fmerge features (extract_content_features p)
    let features := fmerge features (extract_profile_features p)
    let platform := (p.platform.getD "").toLower
    let features :=
      if platform = "twitter" ∨ platform = "x" then
        fmerge features (extract_twitter_features p)
      else if platform = "instagram" then
        fmerge features (extract_instagram_features p)
      else if platform = "facebook" then
        fmerge features (extract_facebook_features p)
      else features
    Except.ok features

/- ## FakeProfileDetector (src/detector.py) -/

/-- The classifier capability (`self.model`): `predict` is
`predict_proba(...)[0][1]` on the canonical feature vector;
`feature_importances` is the optional `feature_importances_` attribute. -/
structure Classifier where
  predict : List ℚ → ℚ
  feature_importances : Option (List ℚ)

/-- The canonical ordered feature-name list shared by
`_prepare_feature_vector` and `_get_feature_importance`. -/
def featureNames : List String :=
  ["account_age_days", "posts_per_day", "followers_count", "following_count",
   "followers_to_following_ratio", "profile_pic_score", "bio_length",
   "has_external_url", "sentiment_score", "content_diversity",
   "engagement_rate", "posting_regularity", "suspicious_content_score",
   "network_isolation_score"]

/-- `_prepare_feature_vector`. -/
def prepare_feature_vector (features : FMap) : List ℚ :=
  featureNames.map (fun n => fget features n 0)

/-- `_get_feature_importance` for a present model: the zip truncates at the
shorter list exactly as Python `zip` does; a model without the attribute
gets uniform `1/n` importances.  (The bare `except` fallback of the source
is unreachable for this total embedding.) -/
def get_feature_importance (model : Classifier) : List (String × ℚ) :=
  match model.feature_importances with
  | some imps => featureNames.zip imps
  | none => featureNames.map (fun n => (n, 1 / (featureNames.length : ℚ)))

/-- The 9 red flags of `_heuristic_detection`, in source dict order,
as (name, triggered) pairs over the merged feature mapping. -/
def redFlags (features : FMap) : List (String × Bool) :=
  [("new_account", decide (fget features "account_age_days" 365 < 30)),
   ("high_following_ratio", decide (fget features "followers_to_following_ratio" 1 < 1/10)),
   ("excessive_posting", decide (fget features "posts_per_day" 2 > 20)),
   ("suspicious_profile_pic", decide (fget features "profile_pic_score" 0 > 7/10)),
   ("low_engagement", decide (fget features "engagement_rate" (5/100) < 1/100)),
   ("suspicious_content", decide (fget features "suspicious_content_score" 0 > 7/10)),
   ("isolated_network", decide (fget features "network_isolation_score" 0 > 7/10)),
   ("duplicate_content", decide (fget features "content_diversity" 1 < 3/10)),
   ("no_bio", decide (fget features "bio_length" 10 < 5))]

/-- `red_flag_count`: the number of triggered flags. -/
def redFlagCount (features : FMap) : ℕ :=
  (redFlags features).countP (fun f => f.2)

/-- `_heuristic_detection`: returns (probability, is_fake, importance). -/
def heuristic_detection (features : FMap) : ℚ × Bool × List (String × ℚ) :=
  let flags := redFlags features
  let red_flag_count := flags.countP (fun f => f.2)
  let probability := min (3/10 + ((red_flag_count : ℚ) / (flags.length : ℚ)) * (7/10)) 1
  let is_fake := decide (probability ≥ 7/10)
  let importance := flags.map (fun f => (f.1, if f.2 then (1/10 : ℚ) else 0))
  (probability, is_fake, importance)

/-- An indicator entry `{name, description, severity}`. -/
structure Indicator where
  name : String
  description : String
  severity : String
deriving DecidableEq, Repr

/-- `_identify_suspicious_indicators` (the `importance` argument is accepted
and never read, as in the source). -/
def identify_suspicious_indicators (features : FMap)
    (importance : List (String × ℚ)) : List Indicator :=
  (if fget features "account_age_days" 365 < 30 then
    [{ name := "New Account", description := "Account was created recently",
       severity := "medium" }] else []) ++
  (if fget features "followers_to_following_ratio" 1 < 1/10 then
    [{ name := "Following/Follower Imbalance",
       description := "Account follows many users but has few followers",
       severity := "high" }] else []) ++
  (if fget features "posts_per_day" 2 > 20 then
    [{ name := "Excessive Posting",
       description := "Account posts with unusually high frequency",
       severity := "medium" }] else []) ++
  (if fget features "profile_pic_score" 0 > 7/10 then
    [{ name := "Suspicious Profile Picture",
       description := "Profile picture shows signs of being AI-generated or stock photo",
       severity := "high" }] else []) ++
  (if fget features "engagement_rate" (5/100) < 1/100 then
    [{ name := "Low Engagement",
       description := "Posts receive very little engagement relative to follower count",
       severity := "medium" }] else []) ++
  (if fget features "content_diversity" 1 < 3/10 then
    [{ name := "Repetitive Content",
       description := "Account posts very similar content repeatedly",
       severity := "medium" }] else []) ++
  (if fget features "suspicious_content_score" 0 > 7/10 then
    [{ name := "Suspicious Content",
       description := "Content contains patterns associated with fake accounts",
       severity := "high" }] else []) ++
  (if fget features "network_isolation_score" 0 > 7/10 then
    [{ name := "Isolated Network",
       description := "Account has minimal interaction with legitimate accounts",
       severity := "high" }] else [])

/-- `_generate_recommendations`. -/
def generate_recommendations (is_fake : Bool) (probability : ℚ)
    (indicators : List Indicator) : List String :=
  let first :=
    if is_fake ∧ probability > 9/10 then
      "This profile is highly likely to be fake. Consider blocking and reporting."
    else if is_fake then
      "This profile shows several suspicious patterns. Exercise caution when interacting."
    else if probability > 4/10 then
      "This profile shows some suspicious patterns but may be legitimate. Verify before engaging."
    else
      "This profile appears to be legitimate based on our analysis."
  [first] ++
  (if indicators.any (fun i => i.name = "New Account") then
    ["This is a new account. Consider waiting for a longer activity history before engaging."]
   else []) ++
  (if indicators.any (fun i => i.name = "Suspicious Profile Picture") then
    ["Verify the profile picture by performing a reverse image search."]
   else []) ++
  (if indicators.any (fun i => i.name = "Suspicious Content") then
    ["Review the content posted by this account carefully before engaging."]
   else [])

/-- The analysis result dict of `analyze_profile`. -/
structure AnalysisResult where
  is_fake : Bool
  probability : ℚ
  indicators : List Indicator
  feature_importance : List (String × ℚ)
  recommendations : List String
  profile_data : Profile
  timestamp : ℤ
deriving Repr

/-- The merged `combined_features` dict of `analyze_profile`: the extractor
output updated in turn by the four analyzer outputs (later updates win). -/
def combined_features (pr : Primitives) (now : ℤ) (p : Profile) :
    Except String FMap :=
  match extract_features now p with
  | Except.error e => Except.error e
  | Except.ok features =>
    Except.ok (fmerge (fmerge (fmerge (fmerge features
      (contentMap (content_analyze pr p)))
      (activityMap (activity_analyze pr now p)))
      (imageMap (image_analyze pr p)))
      (networkMap (network_analyze p)))

/-- `FakeProfileDetector.analyze_profile`.  `now` is the ambient
`datetime.now()` (used for the account-age computations and the result
timestamp); `model` is `self.model` (absent means heuristic fallback).
An exception inside feature extraction is logged and re-raised, i.e.
propagated to the caller. -/
def analyze_profile (pr : Primitives) (model : Option Classifier) (now : ℤ)
    (p : Profile) : Except String AnalysisResult :=
  match combined_features pr now p with
  | Except.error e => Except.error e
  | Except.ok combined =>
    let feature_vector := prepare_feature_vector combined
    let decision : ℚ × Bool × List (String × ℚ) :=
      match model with
      | some m =>
        let probability := m.predict feature_vector
        (probability, decide (probability ≥ 7/10), get_feature_importance m)
      | none => heuristic_detection combined
    let indicators := identify_suspicious_indicators combined decision.2.2
    let recommendations := generate_recommendations decision.2.1 decision.1 indicators
    Except.ok
      { is_fake := decision.2.1, probability := decision.1,
        indicators := indicators, feature_importance := decision.2.2,
        recommendations := recommendations, profile_data := p,
        timestamp := now }

/-- The probability of a finished analysis (`1/2` for a raised exception;
the exception case carries no probability, and `1/2` keeps the projection
total without biasing any threshold comparison). -/
def probabilityOf (e : Except String AnalysisResult) : ℚ :=
  match e with
  | Except.ok r => r.probability
  | Except.error _ => 1/2

/-- The `is_fake` flag of a finished analysis (`false` for a raised
exception). -/
def isFakeOf (e : Except String AnalysisResult) : Bool :=
  match e with
  | Except.ok r => r.is_fake
  | Except.error _ => false

/-- Modelled from the spec (§4.5): the documented value of both
`mutual_connection_ratio` and `reciprocity` — `|followers ∩ following| /
|following|` over the extracted user ids, `0.5` when the following id set
is empty.  This is the spec-side definition that claim C10 compares the
source against. -/
def specMutualRatio (followers following : List UserRef) : ℚ :=
  let follower_ids := idSet followers
  let following_ids := idSet following
  if following_ids = ∅ then 1/2
  else ((follower_ids ∩ following_ids).card : ℚ) / (following_ids.card : ℚ)

/- ## Shared fixtures and helper lemmas -/

/-- A concrete instantiation of the opaque primitives, used to witness that
the hypotheses of the theorems below are satisfiable. -/
def testPrims : Primitives :=
  { exp := fun _ => 1, std := fun _ => 0, rnd := fun _ => 0,
    md5h := fun _ => "", spamHits := fun _ => 0 }

lemma testPrims_valid : testPrims.Valid := by
  refine ⟨fun x => ?_, fun u => ⟨?_, ?_⟩⟩ <;> norm_num [testPrims]

/-- The map produced by a successful extraction (empty map on failure). -/
def okMapOf (e : Except String FMap) : FMap :=
  match e with
  | Except.ok m => m
  | Except.error _ => femp

/-- The timestamp of a finished analysis (0 on failure). -/
def timestampOfE (e : Except String AnalysisResult) : ℤ :=
  match e with
  | Except.ok r => r.timestamp
  | Except.error _ => 0

/-- A clamped value `max 0 (min 1 x)` is in the unit interval. -/
lemma clamp01_mem (x : ℚ) : 0 ≤ max 0 (min 1 x) ∧ max 0 (min 1 x) ≤ 1 :=
  ⟨le_max_left 0 _, max_le (by norm_num) (min_le_left 1 x)⟩

lemma analyze_sentiment_mem (texts : List String) :
    0 ≤ analyze_sentiment texts ∧ analyze_sentiment texts ≤ 1 := by
  unfold analyze_sentiment
  by_cases h : positiveCount texts + negativeCount texts = 0
  · rw [if_pos h]; norm_num
  · rw [if_neg h]
    have hpos : (0:ℚ) < ((positiveCount texts + negativeCount texts : ℕ) : ℚ) := by
      have := Nat.pos_of_ne_zero h
      exact_mod_cast this
    have hp : (0:ℚ) ≤ (positiveCount texts : ℚ) := Nat.cast_nonneg _
    have hn : (0:ℚ) ≤ (negativeCount texts : ℚ) := Nat.cast_nonneg _
    have hcast : ((positiveCount texts + negativeCount texts : ℕ) : ℚ) =
        (positiveCount texts : ℚ) + (negativeCount texts : ℚ) := by push_cast; ring
    rw [hcast] at hpos
    constructor
    · have hq : -(1/2 : ℚ) ≤ ((positiveCount texts : ℚ) - (negativeCount texts : ℚ)) /
          (2 * ((positiveCount texts + negativeCount texts : ℕ) : ℚ)) := by
        rw [hcast, le_div_iff₀ (by linarith)]
        nlinarith
      linarith
    · have hq : ((positiveCount texts : ℚ) - (negativeCount texts : ℚ)) /
          (2 * ((positiveCount texts + negativeCount texts : ℕ) : ℚ)) ≤ 1/2 := by
        rw [hcast, div_le_iff₀ (by linarith)]
        nlinarith
      linarith

/- ## Claim theorems -/

/-- C1: in both decision paths (trained classifier and heuristic fallback)
the returned `is_fake` flag is true exactly when the returned probability is
at least 0.7 (for every profile, every classifier, every analysis time). -/
theorem C1_is_fake_iff_probability_ge
    (pr : Primitives) (model : Option Classifier) (now : ℤ) (p : Profile) :
    isFakeOf (analyze_profile pr model now p) = true ↔
      7/10 ≤ probabilityOf (analyze_profile pr model now p) := by
  unfold analyze_profile
  cases combined_features pr now p with
  | error e => simp [isFakeOf, probabilityOf]; norm_num
  | ok combined =>
    cases model with
    | none =>
      simp only [isFakeOf, probabilityOf, heuristic_detection, decide_eq_true_eq, ge_iff_le]
    | some m =>
      simp only [isFakeOf, probabilityOf, decide_eq_true_eq, ge_iff_le]

/-- C8: burst detection on the documented example — posts at minutes
0, 2, 5 and 40 yield exactly one burst; the greedy non-overlapping scan
also reports a single burst for five posts inside one 10-minute window
(a re-scanning algorithm would report three); and the activity analyzer
reports that count for such a profile, whatever the opaque primitives. -/
theorem C8_burst_detection_example :
    detect_posting_bursts [0, 2*60, 5*60, 40*60] = 1
  ∧ detect_posting_bursts [0, 60, 120, 180, 240] = 1
  ∧ ∀ (pr : Primitives) (now : ℤ),
      (activity_analyze pr now
        { posts := [PostItem.dict { timestamp := some (TSVal.num 0) },
                    PostItem.dict { timestamp := some (TSVal.num (2*60)) },
                    PostItem.dict { timestamp := some (TSVal.num (5*60)) },
                    PostItem.dict { timestamp := some (TSVal.num (40*60)) }] }).posting_bursts
      = some 1 := by
  refine ⟨by decide, by decide, fun pr now => rfl⟩

/-- C9: for every non-empty list of post texts the sentiment score is
`0.5 + (positive − negative) / (2·(positive + negative))` over the fixed
word lists, is exactly `0.5` when no sentiment word occurs, and always lies
in `[0, 1]`. -/
theorem C9_sentiment_formula_and_bounds (texts : List String) (h : texts ≠ []) :
    (positiveCount texts + negativeCount texts = 0 → analyze_sentiment texts = 1/2)
  ∧ analyze_sentiment texts =
      (if positiveCount texts + negativeCount texts = 0 then 1/2
       else 1/2 + ((positiveCount texts : ℚ) - (negativeCount texts : ℚ)) /
         (2 * ((positiveCount texts : ℚ) + (negativeCount texts : ℚ))))
  ∧ 0 ≤ analyze_sentiment texts ∧ analyze_sentiment texts ≤ 1 := by
  refine ⟨fun h0 => by simp [analyze_sentiment, h0], ?_, analyze_sentiment_mem texts⟩
  unfold analyze_sentiment
  by_cases h0 : positiveCount texts + negativeCount texts = 0
  · simp [h0]
  · rw [if_neg h0, if_neg h0]
    congr 1
    push_cast
    ring

/-- C9 witness: the theorem applied to a concrete non-empty text list. -/
theorem C9_sentiment_witness :
    (["good bad good day"] : List String) ≠ []
  ∧ 0 ≤ analyze_sentiment ["good bad good day"]
  ∧ analyze_sentiment ["good bad good day"] ≤ 1 :=
  ⟨by decide,
   (C9_sentiment_formula_and_bounds ["good bad good day"] (by decide)).2.2.1,
   (C9_sentiment_formula_and_bounds ["good bad good day"] (by decide)).2.2.2⟩

/-- A successful extraction is exactly the no-parsable-timestamp case. -/
lemma extract_features_ok (now : ℤ) (p : Profile) (h : postTimestamps p.posts = []) :
    extract_features now p = Except.ok (okMapOf (extract_features now p)) := by
  unfold extract_features extract_activity_features
  simp [h, okMapOf]

lemma extract_features_error (now : ℤ) (p : Profile) (h : postTimestamps p.posts ≠ []) :
    extract_features now p =
      Except.error "AttributeError: float object has no attribute log" := by
  unfold extract_features extract_activity_features
  simp [h]

lemma activity_features_lookup (p : Profile) (act : FMap)
    (h : extract_activity_features p = Except.ok act) :
    act "account_age_days" = none ∧ act "posts_per_day" = some 0
  ∧ act "post_count" = none := by
  unfold extract_activity_features at h
  by_cases hts : postTimestamps p.posts = []
  · rw [if_neg (by simp [hts])] at h
    have := Except.ok.inj h
    subst this
    refine ⟨?_, ?_, ?_⟩ <;> simp [fset, femp, fget]
  · rw [if_pos hts] at h
    exact absurd h (by simp)

lemma content_features_lookup (p : Profile) :
    extract_content_features p "account_age_days" = none
  ∧ extract_content_features p "posts_per_day" = none
  ∧ extract_content_features p "post_count" = none := by
  unfold extract_content_features
  refine ⟨?_, ?_, ?_⟩ <;> (split <;> simp [fset, femp])

lemma profile_features_lookup (p : Profile) :
    extract_profile_features p "account_age_days" = none
  ∧ extract_profile_features p "posts_per_day" = none
  ∧ extract_profile_features p "post_count" = none := by
  unfold extract_profile_features
  refine ⟨?_, ?_, ?_⟩ <;> (split <;> simp [fset, femp])

lemma twitter_features_lookup (p : Profile) :
    extract_twitter_features p "account_age_days" = none
  ∧ extract_twitter_features p "posts_per_day" = none
  ∧ extract_twitter_features p "post_count" = none := by
  unfold extract_twitter_features
  refine ⟨?_, ?_, ?_⟩ <;> simp [fset, femp]

lemma instagram_features_lookup (p : Profile) :
    extract_instagram_features p "account_age_days" = none
  ∧ extract_instagram_features p "posts_per_day" = none
  ∧ extract_instagram_features p "post_count" = none := by
  unfold extract_instagram_features
  refine ⟨?_, ?_, ?_⟩ <;> (split <;> simp [fset, femp])

lemma facebook_features_lookup (p : Profile) :
    extract_facebook_features p "account_age_days" = none
  ∧ extract_facebook_features p "posts_per_day" = none
  ∧ extract_facebook_features p "post_count" = none := by
  unfold extract_facebook_features
  refine ⟨?_, ?_, ?_⟩ <;> simp [fset, femp]

/-- After all merges, the `account_age_days` entry of a successful
extraction is exactly the account-metrics entry (no later sub-extractor
writes that key), and the `posts_per_day` entry is always 0 (the local-dict
slip). -/
lemma extract_features_lookup (now : ℤ) (p : Profile) (m : FMap)
    (h : extract_features now p = Except.ok m) :
    m "account_age_days" = (extract_account_metrics now p) "account_age_days"
  ∧ m "posts_per_day" = some 0
  ∧ m "post_count" = (extract_account_metrics now p) "post_count" := by
  unfold extract_features at h
  cases hact : extract_activity_features p with
  | error e => rw [hact] at h; exact absurd h (by simp)
  | ok act =>
    rw [hact] at h
    have hlook := activity_features_lookup p act hact
    have hm := Except.ok.inj h
    subst hm
    clear h hact
    refine ⟨?_, ?_, ?_⟩
    · simp [fmerge, ite_apply, (twitter_features_lookup p).1, (instagram_features_lookup p).1,
        (facebook_features_lookup p).1, (content_features_lookup p).1,
        (profile_features_lookup p).1, hlook.1]
    · simp [fmerge, ite_apply, (twitter_features_lookup p).2.1, (instagram_features_lookup p).2.1,
        (facebook_features_lookup p).2.1, (content_features_lookup p).2.1,
        (profile_features_lookup p).2.1, hlook.2.1]
    · simp [fmerge, ite_apply, (twitter_features_lookup p).2.2, (instagram_features_lookup p).2.2,
        (facebook_features_lookup p).2.2, (content_features_lookup p).2.2,
        (profile_features_lookup p).2.2, hlook.2.2]

/-- The failing input of claim C4: one post with a (numeric, hence
parsable) timestamp. -/
def crashProfile : Profile :=
  { posts := [PostItem.dict { timestamp := some (TSVal.num 1000) }] }

/-- C4: the pipeline is NOT total — for every profile whose posts carry at
least one parsable timestamp, the posting-time entropy computation of the
feature extractor calls the nonexistent `float.log` method, and
`analyze_profile` re-raises the resulting `AttributeError` to the caller. -/
theorem C4_parsable_timestamp_raises (pr : Primitives) (model : Option Classifier)
    (now : ℤ) (p : Profile) (h : postTimestamps p.posts ≠ []) :
    analyze_profile pr model now p =
      Except.error "AttributeError: float object has no attribute log" := by
  unfold analyze_profile combined_features
  rw [extract_features_error now p h]

/-- C4 witness: the crash at the concrete failing input. -/
theorem C4_crash_witness :
    postTimestamps crashProfile.posts ≠ []
  ∧ analyze_profile testPrims none 0 crashProfile =
      Except.error "AttributeError: float object has no attribute log" :=
  ⟨by decide, C4_parsable_timestamp_raises testPrims none 0 crashProfile (by decide)⟩

/-- The failing input of claim C5: a creation date string matched by none
of the three `strptime` formats (e.g. `"31/12/2020"`). -/
def badDateProfile : Profile := { creation_date := some DateVal.badStr }

/-- C5: on an unparsable creation-date string the feature map contains NO
`account_age_days` entry at all (the `'creation_date' in locals()` slip),
instead of the documented default 365; the 365 default is produced only for
a missing date or a non-string value, and a parsable date yields the
day difference. -/
theorem C5_unparsable_date_key_missing :
    (okMapOf (extract_features 0 badDateProfile)) "account_age_days" = none
  ∧ extract_features 0 badDateProfile = Except.ok (okMapOf (extract_features 0 badDateProfile))
  ∧ (okMapOf (extract_features 0 ({} : Profile))) "account_age_days" = some 365
  ∧ (okMapOf (extract_features 0 ({ creation_date := some DateVal.nonStr } : Profile)))
      "account_age_days" = some 365
  ∧ (okMapOf (extract_features 5000000 ({ creation_date := some (DateVal.parsable 100) } : Profile)))
      "account_age_days" = some ((daysSince 5000000 100 : ℤ) : ℚ)
  ∧ daysSince 5000000 100 = 57
  ∧ (none : Option ℚ) ≠ some 365 := by
  have h1 := extract_features_ok 0 badDateProfile rfl
  have h2 := extract_features_ok 0 ({} : Profile) rfl
  have h3 := extract_features_ok 0 ({ creation_date := some DateVal.nonStr } : Profile) rfl
  have h4 := extract_features_ok 5000000 ({ creation_date := some (DateVal.parsable 100) } : Profile) rfl
  refine ⟨?_, h1, ?_, ?_, ?_, by decide, by simp⟩
  · rw [(extract_features_lookup 0 badDateProfile _ h1).1]
    simp [extract_account_metrics, fset, femp, badDateProfile, ite_apply]
  · rw [(extract_features_lookup 0 ({} : Profile) _ h2).1]
    simp [extract_account_metrics, fset, femp, ite_apply]
  · rw [(extract_features_lookup 0 _ _ h3).1]
    simp [extract_account_metrics, fset, femp, ite_apply]
  · rw [(extract_features_lookup 5000000 _ _ h4).1]
    simp [extract_account_metrics, fset, femp, ite_apply]

/-- The failing input of claim C6: an explicit post count of 100 with the
(default) 365-day account age, for which the claim expects
`posts_per_day = 100 / 365`. -/
def postCountProfile : Profile := { post_count := some 100 }

/-- C6: the normalizer's `posts_per_day` is ALWAYS 0 — the helper consults
a freshly created local dict (not the accumulated features), so the
`account_age_days` lookup never succeeds — contradicting the claimed
`postCount / max(accountAgeDays, 1)` (which is `100/365 ≠ 0` at the
failing input). -/
theorem C6_posts_per_day_always_zero :
    (∀ (now : ℤ) (p : Profile) (m : FMap),
        extract_features now p = Except.ok m → m "posts_per_day" = some 0)
  ∧ extract_features 0 postCountProfile = Except.ok (okMapOf (extract_features 0 postCountProfile))
  ∧ (okMapOf (extract_features 0 postCountProfile)) "posts_per_day" = some 0
  ∧ (okMapOf (extract_features 0 postCountProfile)) "post_count" = some 100
  ∧ (okMapOf (extract_features 0 postCountProfile)) "account_age_days" = some 365
  ∧ ((100 : ℚ) / 365 ≠ 0) := by
  have h1 := extract_features_ok 0 postCountProfile rfl
  refine ⟨fun now p m h => (extract_features_lookup now p m h).2.1, h1,
    (extract_features_lookup 0 postCountProfile _ h1).2.1, ?_, ?_, by norm_num⟩
  · rw [(extract_features_lookup 0 postCountProfile _ h1).2.2]
    simp [extract_account_metrics, fset, femp, postCountProfile, ite_apply]
  · rw [(extract_features_lookup 0 postCountProfile _ h1).1]
    simp [extract_account_metrics, fset, femp, postCountProfile, ite_apply]

/-- C6 witness: the general part of the theorem applied at the concrete
failing input. -/
theorem C6_witness :
    extract_features 0 postCountProfile = Except.ok (okMapOf (extract_features 0 postCountProfile))
  ∧ (okMapOf (extract_features 0 postCountProfile)) "posts_per_day" = some 0 :=
  ⟨extract_features_ok 0 postCountProfile rfl,
   C6_posts_per_day_always_zero.1 0 postCountProfile _
     (extract_features_ok 0 postCountProfile rfl)⟩

lemma analyze_ok_timestamp (pr : Primitives) (model : Option Classifier)
    (now : ℤ) (p : Profile) (h : postTimestamps p.posts = []) :
    timestampOfE (analyze_profile pr model now p) = now := by
  unfold analyze_profile combined_features
  rw [extract_features_ok now p h]
  cases model <;> simp [timestampOfE]

/-- C7 counterexample: analyzing the same profile with the same classifier
state at two different times yields different results (the result embeds
the analysis timestamp), refuting bit-identical idempotence as claimed. -/
theorem C7_time_dependence_counterexample :
    analyze_profile testPrims none 0 ({} : Profile) ≠
      analyze_profile testPrims none 1 ({} : Profile) := by
  intro h
  have h0 := analyze_ok_timestamp testPrims none 0 ({} : Profile) rfl
  have h1 := analyze_ok_timestamp testPrims none 1 ({} : Profile) rfl
  rw [h] at h0
  exact absurd (h0.symm.trans h1) (by norm_num)

/-- The result with its timestamp field cleared. -/
def eraseTimestamp (r : AnalysisResult) : AnalysisResult :=
  { r with timestamp := 0 }

/-- C7 (amended): `analyze_profile` is a deterministic function of the
profile, the classifier state AND the analysis time; two runs whose times
induce the same day-difference function produce results that are
bit-identical except for the embedded timestamp. -/
theorem C7_deterministic_given_time (pr : Primitives) (model : Option Classifier)
    (p : Profile) (t1 t2 : ℤ) (h : ∀ d, daysSince t1 d = daysSince t2 d) :
    Except.map eraseTimestamp (analyze_profile pr model t1 p) =
      Except.map eraseTimestamp (analyze_profile pr model t2 p) := by
  have hfun : daysSince t1 = daysSince t2 := funext h
  unfold analyze_profile combined_features extract_features extract_account_metrics
    activity_analyze
  rw [hfun]
  cases hact : extract_activity_features p with
  | error e => rfl
  | ok act => cases model <;> simp [Except.map, eraseTimestamp]

/-- C7 witness: the amended determinism applied at a concrete profile and
equal analysis times. -/
theorem C7_deterministic_witness :
    Except.map eraseTimestamp (analyze_profile testPrims none 0 ({} : Profile)) =
      Except.map eraseTimestamp (analyze_profile testPrims none 0 ({} : Profile)) :=
  C7_deterministic_given_time testPrims none ({} : Profile) 0 0 (fun _ => rfl)

/-- The counterexample input of claim C10: an empty followers list with a
non-empty following list. -/
def ghostFollowerProfile : Profile :=
  { followers := [], following := [UserRef.ustr "a"] }

/-- C10 counterexample: with followers `[]` and following `["a"]` the
analyzer reports the neutral 0.5 for `mutual_connection_ratio` (the
`if followers and following` guard short-circuits), while the claimed
formula `|followers ∩ following| / |following|` gives 0. -/
theorem C10_mutual_ratio_counterexample :
    (network_analyze ghostFollowerProfile).mutual_connection_ratio ≠
      specMutualRatio ghostFollowerProfile.followers ghostFollowerProfile.following := by
  have hl : (network_analyze ghostFollowerProfile).mutual_connection_ratio = 1/2 := by
    simp [network_analyze, ghostFollowerProfile]
  have hr : specMutualRatio ghostFollowerProfile.followers ghostFollowerProfile.following = 0 := by
    simp [specMutualRatio, idSet, extract_user_ids, ghostFollowerProfile]
  rw [hl, hr]
  norm_num

/-- C10 (amended): the two reported fields are extensionally the same
function, and they equal the claimed set-overlap formula whenever BOTH raw
relationship lists are non-empty; when either raw list is empty both fields
are the neutral 0.5 even though the formula may differ (the
counterexample). -/
theorem C10_mutual_equals_reciprocity (p : Profile) :
    (network_analyze p).mutual_connection_ratio = (network_analyze p).reciprocity
  ∧ (p.followers ≠ [] → p.following ≠ [] →
      (network_analyze p).mutual_connection_ratio = specMutualRatio p.followers p.following
    ∧ (network_analyze p).reciprocity = specMutualRatio p.followers p.following)
  ∧ (p.followers = [] ∨ p.following = [] →
      (network_analyze p).mutual_connection_ratio = 1/2
    ∧ (network_analyze p).reciprocity = 1/2) := by
  refine ⟨rfl, fun h1 h2 => ⟨?_, ?_⟩, fun h => ⟨?_, ?_⟩⟩
  · simp only [network_analyze]
    rw [if_pos ⟨h1, h2⟩]
    rfl
  · simp only [network_analyze]
    rw [if_pos ⟨h1, h2⟩]
    rfl
  · simp only [network_analyze]
    rw [if_neg (by rcases h with h | h <;> simp [h])]
  · simp only [network_analyze]
    rw [if_neg (by rcases h with h | h <;> simp [h])]

/-- A profile with both relationship lists non-empty. -/
def mutualProfile : Profile :=
  { followers := [UserRef.ustr "a"],
    following := [UserRef.ustr "a", UserRef.ustr "b"] }

/-- C10 witness: the amended statement applied to concrete non-empty
lists. -/
theorem C10_amended_witness :
    mutualProfile.followers ≠ []
  ∧ mutualProfile.following ≠ []
  ∧ (network_analyze mutualProfile).mutual_connection_ratio =
      specMutualRatio mutualProfile.followers mutualProfile.following :=
  ⟨by decide, by decide,
   ((C10_mutual_equals_reciprocity mutualProfile).2.1 (by decide) (by decide)).1⟩

/-- C3: the heuristic fallback evaluates exactly 9 red flags at the
documented thresholds, returns
`probability = min(0.3 + (triggeredCount/9)·0.7, 1.0)` with per-flag
importance 0.1 if triggered else 0, and in particular 0 triggered flags
give probability exactly 0.3 (not fake) while 9 give exactly 1.0 (fake). -/
theorem C3_heuristic_red_flags (fm : FMap) :
    (redFlags fm).length = 9
  ∧ (redFlags fm).map Prod.snd =
      [decide (fget fm "account_age_days" 365 < 30),
       decide (fget fm "followers_to_following_ratio" 1 < 1/10),
       decide (fget fm "posts_per_day" 2 > 20),
       decide (fget fm "profile_pic_score" 0 > 7/10),
       decide (fget fm "engagement_rate" (5/100) < 1/100),
       decide (fget fm "suspicious_content_score" 0 > 7/10),
       decide (fget fm "network_isolation_score" 0 > 7/10),
       decide (fget fm "content_diversity" 1 < 3/10),
       decide (fget fm "bio_length" 10 < 5)]
  ∧ (heuristic_detection fm).1 = min (3/10 + ((redFlagCount fm : ℚ) / 9) * (7/10)) 1
  ∧ (heuristic_detection fm).2.2 =
      (redFlags fm).map (fun f => (f.1, if f.2 then (1/10 : ℚ) else 0))
  ∧ (redFlagCount fm = 0 →
      (heuristic_detection fm).1 = 3/10 ∧ (heuristic_detection fm).2.1 = false)
  ∧ (redFlagCount fm = 9 →
      (heuristic_detection fm).1 = 1 ∧ (heuristic_detection fm).2.1 = true) := by
  have hlen : (redFlags fm).length = 9 := rfl
  refine ⟨rfl, rfl, ?_, rfl, fun h => ⟨?_, ?_⟩, fun h => ⟨?_, ?_⟩⟩
  · simp only [heuristic_detection, redFlagCount, hlen]
    norm_num
  · simp only [heuristic_detection, hlen]
    unfold redFlagCount at h
    rw [h]
    norm_num [min_def]
  · simp only [heuristic_detection, hlen]
    unfold redFlagCount at h
    rw [h]
    rw [decide_eq_false_iff_not]
    norm_num [min_def]
  · simp only [heuristic_detection, hlen]
    unfold redFlagCount at h
    rw [h]
    norm_num [min_def]
  · simp only [heuristic_detection, hlen]
    unfold redFlagCount at h
    rw [h]
    rw [decide_eq_true_eq]
    norm_num [min_def]

/-- A feature mapping triggering all 9 red flags. -/
def allFlagsMap : FMap :=
  fset (fset (fset (fset (fset (fset (fset (fset (fset femp
    "account_age_days" 0) "followers_to_following_ratio" 0)
    "posts_per_day" 21) "profile_pic_score" 1) "engagement_rate" 0)
    "suspicious_content_score" 1) "network_isolation_score" 1)
    "content_diversity" 0) "bio_length" 0

/-- C3 witness: the endpoint cases of the theorem at concrete feature
mappings with 0 and with 9 triggered flags. -/
theorem C3_heuristic_witness :
    redFlagCount femp = 0
  ∧ (heuristic_detection femp).1 = 3/10 ∧ (heuristic_detection femp).2.1 = false
  ∧ redFlagCount allFlagsMap = 9
  ∧ (heuristic_detection allFlagsMap).1 = 1
  ∧ (heuristic_detection allFlagsMap).2.1 = true := by
  have h0 : redFlagCount femp = 0 := by
    have n1 : ¬((365:ℚ) < 30) := by norm_num
    have n2 : ¬((1:ℚ) < 1/10) := by norm_num
    have n3 : ¬((20:ℚ) < 2) := by norm_num
    have n4 : ¬((7/10:ℚ) < 0) := by norm_num
    have n5 : ¬((5/100:ℚ) < 1/100) := by norm_num
    have n6 : ¬((1:ℚ) < 3/10) := by norm_num
    have n7 : ¬((10:ℚ) < 5) := by norm_num
    simp [redFlagCount, redFlags, fget, femp, n1, n2, n3, n4, n5, n6, n7]
    try norm_num
  have h9 : redFlagCount allFlagsMap = 9 := by
    have d1 : (0:ℚ) < 30 := by norm_num
    have d2 : (0:ℚ) < 1/10 := by norm_num
    have d3 : (20:ℚ) < 21 := by norm_num
    have d4 : (7/10:ℚ) < 1 := by norm_num
    have d5 : (0:ℚ) < 1/100 := by norm_num
    have d6 : (0:ℚ) < 3/10 := by norm_num
    have d7 : (0:ℚ) < 5 := by norm_num
    simp [redFlagCount, redFlags, fget, fset, femp, allFlagsMap, d1, d2, d3, d4, d5, d6, d7]
    try norm_num
  exact ⟨h0, ((C3_heuristic_red_flags femp).2.2.2.2.1 h0).1,
    ((C3_heuristic_red_flags femp).2.2.2.2.1 h0).2, h9,
    ((C3_heuristic_red_flags allFlagsMap).2.2.2.2.2 h9).1,
    ((C3_heuristic_red_flags allFlagsMap).2.2.2.2.2 h9).2⟩

lemma calculate_content_diversity_mem (texts : List String) :
    0 ≤ calculate_content_diversity texts ∧ calculate_content_diversity texts ≤ 1 := by
  simp only [calculate_content_diversity]
  split_ifs with h1 h2 h3
  · norm_num
  · norm_num
  · norm_num
  · have htok : ¬((texts.map (fun t => tokenize t.toLower)).flatten = []) := h2
    have hpos : (0:ℚ) < ((texts.map (fun t => tokenize t.toLower)).flatten.length : ℚ) := by
      have := List.length_pos.mpr htok
      exact_mod_cast this
    have httr0 : (0:ℚ) ≤
        ((texts.map (fun t => tokenize t.toLower)).flatten.dedup.length : ℚ) /
        ((texts.map (fun t => tokenize t.toLower)).flatten.length : ℚ) := by positivity
    have httr1 : ((texts.map (fun t => tokenize t.toLower)).flatten.dedup.length : ℚ) /
        ((texts.map (fun t => tokenize t.toLower)).flatten.length : ℚ) ≤ 1 := by
      rw [div_le_one hpos]
      exact_mod_cast (List.dedup_sublist _).length_le
    have hn : (0:ℚ) ≤ (texts.length : ℚ) := Nat.cast_nonneg _
    have hfac0 : (0:ℚ) ≤ 1 - 1/2 * (1 / (1 + (texts.length : ℚ))) := by
      have h11 : (1:ℚ) ≤ 1 + (texts.length : ℚ) := by linarith
      have := div_le_one_of_le₀ h11 (by linarith)
      linarith
    have hfac1 : 1 - 1/2 * (1 / (1 + (texts.length : ℚ))) ≤ 1 := by
      have : (0:ℚ) < 1 + (texts.length : ℚ) := by linarith
      have := le_of_lt (div_pos one_pos this)
      linarith
    constructor
    · exact mul_nonneg httr0 hfac0
    · nlinarith

lemma calculate_suspicious_score_mem (s d : ℚ) (spam : ℕ) (kr : ℚ) (pc : ℕ)
    (hs0 : 0 ≤ s) (hs1 : s ≤ 1) (hd0 : 0 ≤ d) (hd1 : d ≤ 1) (hkr : 0 ≤ kr) :
    0 ≤ calculate_suspicious_score s d spam kr pc
  ∧ calculate_suspicious_score s d spam kr pc ≤ 1 := by
  simp only [calculate_suspicious_score]
  have habs : |s - 1/2| ≤ 1/2 := abs_le.mpr ⟨by linarith, by linarith⟩
  have habs0 : (0:ℚ) ≤ |s - 1/2| := abs_nonneg _
  have hsp : 0 ≤ (if pc > 0 then min 1 ((spam : ℚ) / (pc : ℚ)) else 0)
      ∧ (if pc > 0 then min 1 ((spam : ℚ) / (pc : ℚ)) else 0) ≤ 1 := by
    split_ifs with h
    · exact ⟨le_min (by norm_num) (by positivity), min_le_left _ _⟩
    · norm_num
  have hkw : 0 ≤ min 1 (kr * 10) ∧ min 1 (kr * 10) ≤ 1 :=
    ⟨le_min (by norm_num) (by positivity), min_le_left _ _⟩
  constructor <;> linarith [hsp.1, hsp.2, hkw.1, hkw.2]

lemma content_analyze_mem (pr : Primitives) (p : Profile) :
    (0 ≤ (content_analyze pr p).sentiment_score ∧ (content_analyze pr p).sentiment_score ≤ 1)
  ∧ (0 ≤ (content_analyze pr p).content_diversity ∧ (content_analyze pr p).content_diversity ≤ 1)
  ∧ (0 ≤ (content_analyze pr p).suspicious_content_score
      ∧ (content_analyze pr p).suspicious_content_score ≤ 1) := by
  unfold content_analyze
  by_cases h1 : p.posts = []
  · simp only [if_pos h1]
    norm_num
  · simp only [if_neg h1]
    by_cases h2 : contentTexts p.posts = []
    · simp only [if_pos h2]
      norm_num
    · simp only [if_neg h2]
      have hs := analyze_sentiment_mem (contentTexts p.posts)
      have hd := calculate_content_diversity_mem (contentTexts p.posts)
      have hkr : 0 ≤ (if ((contentTexts p.posts).map (fun t => (tokenize t).length)).sum > 0 then
          ((count_suspicious_keywords (contentTexts p.posts) : ℚ) /
            (((contentTexts p.posts).map (fun t => (tokenize t).length)).sum : ℚ))
        else 0) := by
        split_ifs
        · positivity
        · exact le_refl 0
      refine ⟨hs, hd, ?_⟩
      exact calculate_suspicious_score_mem _ _ _ _ _ hs.1 hs.2 hd.1 hd.2 hkr

lemma windowPosts_bridge (l : List ℕ) (s : ℕ) :
    windowPosts l s = ∑ i ∈ Finset.range 8, l.count ((s + i) % 24) := rfl

/-- Any 8-hour window counts each post at most once (the 8 window residues
mod 24 are distinct), so a window never holds more posts than exist. -/
lemma windowPosts_le (hours : List ℕ) (s : ℕ) : windowPosts hours s ≤ hours.length := by
  induction hours with
  | nil => simp [windowPosts, List.count_nil]
  | cons a t ih =>
    rw [windowPosts_bridge] at ih ⊢
    rw [List.length_cons]
    have hsplit : ∑ i ∈ Finset.range 8, (a :: t).count ((s + i) % 24) =
        (∑ i ∈ Finset.range 8, t.count ((s + i) % 24)) +
        (∑ i ∈ Finset.range 8, if (s + i) % 24 = a then 1 else 0) := by
      rw [← Finset.sum_add_distrib]
      apply Finset.sum_congr rfl
      intro i _
      rw [List.count_cons]
      simp only [beq_iff_eq]
      congr 1
      exact if_congr eq_comm rfl rfl
    have hone : (∑ i ∈ Finset.range 8, if (s + i) % 24 = a then 1 else 0) ≤ 1 := by
      have hcard : ((Finset.range 8).filter (fun i => (s + i) % 24 = a)).card ≤ 1 := by
        apply Finset.card_le_one.mpr
        intro x hx y hy
        simp only [Finset.mem_filter, Finset.mem_range] at hx hy
        omega
      calc (∑ i ∈ Finset.range 8, if (s + i) % 24 = a then 1 else 0)
          = ((Finset.range 8).filter (fun i => (s + i) % 24 = a)).card := by
            rw [Finset.card_filter]
        _ ≤ 1 := hcard
    rw [hsplit]
    omega

lemma foldl_max_le {b : ℕ} (l : List ℕ) (hall : ∀ x ∈ l, x ≤ b) :
    ∀ init, init ≤ b → l.foldl max init ≤ b := by
  induction l with
  | nil => intro init h; simpa using h
  | cons a t ih =>
    intro init h
    simp only [List.foldl_cons]
    exact ih (fun x hx => hall x (by simp [hx])) _ (max_le h (hall a (by simp)))

lemma analyze_posting_regularity_mem (pr : Primitives) (ts : List ℤ) :
    0 ≤ analyze_posting_regularity pr ts ∧ analyze_posting_regularity pr ts ≤ 1 := by
  simp only [analyze_posting_regularity]
  split_ifs
  · norm_num
  · norm_num
  · exact clamp01_mem _

lemma analyze_time_zone_consistency_mem (ts : List ℤ) :
    0 ≤ analyze_time_zone_consistency ts ∧ analyze_time_zone_consistency ts ≤ 1 := by
  simp only [analyze_time_zone_consistency]
  split_ifs with h
  · norm_num
  · have hlen : 5 ≤ ts.length := not_lt.mp h
    have hlenpos : (0:ℚ) < ((ts.map hourOf).length : ℚ) := by
      rw [List.length_map]
      exact_mod_cast lt_of_lt_of_le (by norm_num) hlen
    have hmax : ((List.range 24).map (windowPosts (ts.map hourOf))).foldl max 0 ≤
        (ts.map hourOf).length := by
      apply foldl_max_le
      · intro x hx
        simp only [List.mem_map] at hx
        obtain ⟨s, _, rfl⟩ := hx
        exact windowPosts_le _ _
      · exact Nat.zero_le _
    constructor
    · exact div_nonneg (Nat.cast_nonneg _) (le_of_lt hlenpos)
    · rw [div_le_one hlenpos]
      exact_mod_cast hmax

lemma calculate_engagement_rate_mem (pr : Primitives) (hex : ∀ x : ℚ, 0 < pr.exp x)
    (posts : List PostItem) :
    0 ≤ calculate_engagement_rate pr posts ∧ calculate_engagement_rate pr posts ≤ 1 := by
  simp only [calculate_engagement_rate]
  split_ifs with h
  · norm_num
  · have he := hex (-(1/10) * ((posts.map (fun item => match item with
      | PostItem.dict post => post.likes + post.comments + post.shares.getD 0
      | PostItem.str _ => 0)).sum / (posts.length : ℚ) - 10))
    constructor
    · positivity
    · rw [div_le_one (by linarith)]
      linarith

lemma calculate_activity_score_mem (age : ℤ) (ppd reg er tz : ℚ) (bursts : ℕ)
    (hreg1 : reg ≤ 1) :
    0 ≤ calculate_activity_score age ppd reg er tz bursts
  ∧ calculate_activity_score age ppd reg er tz bursts ≤ 1 := by
  simp only [calculate_activity_score]
  have hage := clamp01_mem (1 - (age : ℚ) / 180)
  have heng := clamp01_mem (1 - er * 10)
  have htz := clamp01_mem (1 - tz)
  have hfreq : 0 ≤ (if ppd > 15 then min 1 ((ppd - 15) / 10)
        else if ppd < 5/100 then min 1 ((5/100 - ppd) / (5/100)) else 0)
      ∧ (if ppd > 15 then min 1 ((ppd - 15) / 10)
        else if ppd < 5/100 then min 1 ((5/100 - ppd) / (5/100)) else 0) ≤ 1 := by
    split_ifs with hp1 hp2
    · exact ⟨le_min (by norm_num) (by apply div_nonneg <;> linarith), min_le_left _ _⟩
    · exact ⟨le_min (by norm_num) (by apply div_nonneg <;> linarith), min_le_left _ _⟩
    · norm_num
  have hregf : 0 ≤ (if reg > 8/10 then reg else 0)
      ∧ (if reg > 8/10 then reg else 0) ≤ 1 := by
    split_ifs with hr
    · exact ⟨by linarith, hreg1⟩
    · norm_num
  have hburst : 0 ≤ min 1 ((bursts : ℚ) / 5) ∧ min 1 ((bursts : ℚ) / 5) ≤ 1 :=
    ⟨le_min (by norm_num) (by positivity), min_le_left _ _⟩
  constructor <;>
    linarith [hage.1, hage.2, heng.1, heng.2, htz.1, htz.2, hfreq.1, hfreq.2,
      hregf.1, hregf.2, hburst.1, hburst.2]

lemma activity_analyze_mem (pr : Primitives) (hex : ∀ x : ℚ, 0 < pr.exp x)
    (now : ℤ) (p : Profile) :
    (0 ≤ (activity_analyze pr now p).posting_regularity
      ∧ (activity_analyze pr now p).posting_regularity ≤ 1)
  ∧ (0 ≤ (activity_analyze pr now p).time_zone_consistency
      ∧ (activity_analyze pr now p).time_zone_consistency ≤ 1)
  ∧ (0 ≤ (activity_analyze pr now p).engagement_rate
      ∧ (activity_analyze pr now p).engagement_rate ≤ 1)
  ∧ (0 ≤ (activity_analyze pr now p).activity_score
      ∧ (activity_analyze pr now p).activity_score ≤ 1) := by
  unfold activity_analyze
  by_cases h1 : p.posts = []
  · simp only [if_pos h1]
    norm_num
  · simp only [if_neg h1]
    by_cases h2 : postTimestamps p.posts ≠ []
    · simp only [if_pos h2]
      have hreg := analyze_posting_regularity_mem pr (postTimestamps p.posts)
      have htz := analyze_time_zone_consistency_mem (postTimestamps p.posts)
      have heng := calculate_engagement_rate_mem pr hex p.posts
      exact ⟨hreg, htz, heng, calculate_activity_score_mem _ _ _ _ _ _ hreg.2⟩
    · simp only [if_neg h2]
      have heng := calculate_engagement_rate_mem pr hex p.posts
      refine ⟨by norm_num, by norm_num, heng, ?_⟩
      exact calculate_activity_score_mem _ _ _ _ _ _ (by norm_num)

lemma calculate_profile_pic_score_mem (d s a : Bool) (q : ℚ) (h0 : 0 ≤ q) (h1 : q ≤ 1) :
    0 ≤ calculate_profile_pic_score d s a q ∧ calculate_profile_pic_score d s a q ≤ 1 := by
  simp only [calculate_profile_pic_score]
  constructor
  · apply le_min (by norm_num)
    have hq : 0 ≤ (1 - q) * (2/10) := mul_nonneg (by linarith) (by norm_num)
    split_ifs <;> linarith
  · exact min_le_left _ _

lemma image_analyze_mem (pr : Primitives) (hrnd : ∀ u : String, 0 ≤ pr.rnd u ∧ pr.rnd u < 1)
    (p : Profile) :
    0 ≤ (image_analyze pr p).profile_pic_score
  ∧ (image_analyze pr p).profile_pic_score ≤ 1 := by
  unfold image_analyze
  cases hu : p.profile_pic_url with
  | none => norm_num
  | some url =>
    by_cases he : url = ""
    · simp only [if_pos he]
      norm_num
    · simp only [if_neg he]
      by_cases hd : ¬ is_default_profile_picture url
      · simp only [if_pos hd, analyze_image]
        exact calculate_profile_pic_score_mem _ _ _ _
          (by have := (hrnd url).1; linarith)
          (by have := (hrnd url).2; linarith)
      · simp only [if_neg hd]
        exact calculate_profile_pic_score_mem _ _ _ _ (by norm_num) (by norm_num)

lemma idSet_ratio_mem (A B : Finset String) (h : B ≠ ∅) :
    0 ≤ ((A ∩ B).card : ℚ) / (B.card : ℚ) ∧ ((A ∩ B).card : ℚ) / (B.card : ℚ) ≤ 1 := by
  have hpos : (0:ℚ) < (B.card : ℚ) := by
    have := Finset.card_pos.mpr (Finset.nonempty_iff_ne_empty.mpr h)
    exact_mod_cast this
  constructor
  · positivity
  · rw [div_le_one hpos]
    exact_mod_cast Finset.card_le_card (Finset.inter_subset_right)

lemma analyze_mutual_connections_mem (f g : List UserRef) :
    0 ≤ analyze_mutual_connections f g ∧ analyze_mutual_connections f g ≤ 1 := by
  simp only [analyze_mutual_connections]
  split_ifs with h
  · norm_num
  · exact idSet_ratio_mem _ _ h

lemma calculate_reciprocity_mem (f g : List UserRef) :
    0 ≤ calculate_reciprocity f g ∧ calculate_reciprocity f g ≤ 1 := by
  simp only [calculate_reciprocity]
  split_ifs with h
  · norm_num
  · exact idSet_ratio_mem _ _ h

lemma calculate_network_isolation_mem (f g i : List UserRef) :
    0 ≤ calculate_network_isolation f g i ∧ calculate_network_isolation f g i ≤ 1 := by
  simp only [calculate_network_isolation]
  have hfir : 0 ≤ (if (idSet f).card > 0 then
        (((idSet f ∩ idSet i).card : ℚ)) / ((idSet f).card : ℚ) else 0)
      ∧ (if (idSet f).card > 0 then
        (((idSet f ∩ idSet i).card : ℚ)) / ((idSet f).card : ℚ) else 0) ≤ 1 := by
    split_ifs with h
    · have hpos : (0:ℚ) < ((idSet f).card : ℚ) := by exact_mod_cast h
      constructor
      · positivity
      · rw [div_le_one hpos]
        exact_mod_cast Finset.card_le_card (Finset.inter_subset_left)
    · norm_num
  have hmr : 0 ≤ (if (idSet g).card > 0 then
        (((idSet f ∩ idSet g).card : ℚ)) / ((idSet g).card : ℚ) else 0)
      ∧ (if (idSet g).card > 0 then
        (((idSet f ∩ idSet g).card : ℚ)) / ((idSet g).card : ℚ) else 0) ≤ 1 := by
    split_ifs with h
    · have hpos : (0:ℚ) < ((idSet g).card : ℚ) := by exact_mod_cast h
      constructor
      · positivity
      · rw [div_le_one hpos]
        exact_mod_cast Finset.card_le_card (Finset.inter_subset_right)
    · norm_num
  constructor <;> linarith [hfir.1, hfir.2, hmr.1, hmr.2]

lemma estimate_isolation_from_counts_mem (fc gc : ℚ) :
    0 ≤ estimate_isolation_from_counts fc gc
  ∧ estimate_isolation_from_counts fc gc ≤ 1 := by
  simp only [estimate_isolation_from_counts]
  split_ifs <;> norm_num

lemma estimate_clustering_mem (f g i : List UserRef) :
    0 ≤ estimate_clustering f g i ∧ estimate_clustering f g i ≤ 1 := by
  simp only [estimate_clustering]
  split_ifs with h
  · norm_num
  · have hpos : (0:ℚ) <
        (((idSet f).card + (idSet g).card + (idSet i).card : ℕ) : ℚ) := by
      have := Nat.pos_of_ne_zero h
      exact_mod_cast this
    have hov : ((idSet f ∩ idSet g).card + (idSet f ∩ idSet i).card +
        (idSet g ∩ idSet i).card : ℕ) ≤
        ((idSet f).card + (idSet g).card + (idSet i).card : ℕ) := by
      have h1 : (idSet f ∩ idSet g).card ≤ (idSet f).card :=
        Finset.card_le_card (Finset.inter_subset_left)
      have h2 : (idSet f ∩ idSet i).card ≤ (idSet i).card :=
        Finset.card_le_card (Finset.inter_subset_right)
      have h3 : (idSet g ∩ idSet i).card ≤ (idSet g).card :=
        Finset.card_le_card (Finset.inter_subset_left)
      omega
    have hraw0 : (0:ℚ) ≤
        (((idSet f ∩ idSet g).card + (idSet f ∩ idSet i).card +
          (idSet g ∩ idSet i).card : ℕ) : ℚ) /
        (((idSet f).card + (idSet g).card + (idSet i).card : ℕ) : ℚ) := by positivity
    have hraw1 : (((idSet f ∩ idSet g).card + (idSet f ∩ idSet i).card +
          (idSet g ∩ idSet i).card : ℕ) : ℚ) /
        (((idSet f).card + (idSet g).card + (idSet i).card : ℕ) : ℚ) ≤ 1 := by
      rw [div_le_one hpos]
      exact_mod_cast hov
    constructor <;> push_cast at hraw0 hraw1 ⊢ <;> linarith

lemma calculate_network_score_mem (fr iso mr cl re fc gc : ℚ)
    (hiso : 0 ≤ iso) (hmr : mr ≤ 1) (hcl : cl ≤ 1) (hre : re ≤ 1) :
    0 ≤ calculate_network_score fr iso mr cl re fc gc
  ∧ calculate_network_score fr iso mr cl re fc gc ≤ 1 := by
  simp only [calculate_network_score]
  have hs1 : 0 ≤ (if fc < 10 then (3:ℚ)/10 else if fc < 50 then 2/10 else 0) := by
    split_ifs <;> norm_num
  have hs2 : 0 ≤ (if gc > 0 then
      (if fc / gc < 1/10 then (25:ℚ)/100 else if fc / gc < 3/10 then 15/100 else 0)
      else 0) := by
    split_ifs <;> norm_num
  constructor
  · apply le_min (by norm_num)
    nlinarith
  · exact min_le_left _ _

lemma network_analyze_mem (p : Profile) :
    (0 ≤ (network_analyze p).network_isolation_score
      ∧ (network_analyze p).network_isolation_score ≤ 1)
  ∧ (0 ≤ (network_analyze p).mutual_connection_ratio
      ∧ (network_analyze p).mutual_connection_ratio ≤ 1)
  ∧ (0 ≤ (network_analyze p).clustering_coefficient
      ∧ (network_analyze p).clustering_coefficient ≤ 1)
  ∧ (0 ≤ (network_analyze p).reciprocity ∧ (network_analyze p).reciprocity ≤ 1)
  ∧ (0 ≤ (network_analyze p).network_score ∧ (network_analyze p).network_score ≤ 1) := by
  unfold network_analyze
  have hiso : 0 ≤ (if p.followers ≠ [] ∨ p.following ≠ [] ∨ p.interactions ≠ [] then
        calculate_network_isolation p.followers p.following p.interactions
      else estimate_isolation_from_counts (p.followers_count.getD 0) (p.following_count.getD 0))
    ∧ (if p.followers ≠ [] ∨ p.following ≠ [] ∨ p.interactions ≠ [] then
        calculate_network_isolation p.followers p.following p.interactions
      else estimate_isolation_from_counts (p.followers_count.getD 0) (p.following_count.getD 0)) ≤ 1 := by
    split_ifs
    · exact calculate_network_isolation_mem _ _ _
    · exact estimate_isolation_from_counts_mem _ _
  have hmr : 0 ≤ (if p.followers ≠ [] ∧ p.following ≠ [] then
        analyze_mutual_connections p.followers p.following else 1/2)
    ∧ (if p.followers ≠ [] ∧ p.following ≠ [] then
        analyze_mutual_connections p.followers p.following else 1/2) ≤ 1 := by
    split_ifs
    · exact analyze_mutual_connections_mem _ _
    · norm_num
  have hcl : 0 ≤ (if p.followers ≠ [] ∧ p.following ≠ [] then
        estimate_clustering p.followers p.following p.interactions else 1/2)
    ∧ (if p.followers ≠ [] ∧ p.following ≠ [] then
        estimate_clustering p.followers p.following p.interactions else 1/2) ≤ 1 := by
    split_ifs
    · exact estimate_clustering_mem _ _ _
    · norm_num
  have hre : 0 ≤ (if p.followers ≠ [] ∧ p.following ≠ [] then
        calculate_reciprocity p.followers p.following else 1/2)
    ∧ (if p.followers ≠ [] ∧ p.following ≠ [] then
        calculate_reciprocity p.followers p.following else 1/2) ≤ 1 := by
    split_ifs
    · exact calculate_reciprocity_mem _ _
    · norm_num
  exact ⟨hiso, hmr, hcl, hre,
    calculate_network_score_mem
      (calculate_ratio (p.followers_count.getD 0) (p.following_count.getD 0)) _ _ _ _
      (p.followers_count.getD 0) (p.following_count.getD 0) hiso.1 hmr.2 hcl.2 hre.2⟩

lemma heuristic_probability_mem (fm : FMap) :
    0 ≤ (heuristic_detection fm).1 ∧ (heuristic_detection fm).1 ≤ 1 := by
  simp only [heuristic_detection]
  constructor
  · apply le_min _ (by norm_num)
    positivity
  · exact min_le_right _ _

/-- C2: for every profile, every score-valued field produced by the four
analyzers (sentiment, diversity, suspicious content, regularity, time-zone
consistency, engagement, activity score, profile-pic score, isolation,
mutual ratio, clustering, reciprocity, network score) and the final
probability lie in the closed interval [0, 1].  The hypotheses are the facts
true of the opaque numeric primitives (`exp` positive, the PRNG draw in
`[0,1)`) and the classifier capability contract (probability in `[0,1]`). -/
theorem C2_scores_in_unit_interval (pr : Primitives) (model : Option Classifier)
    (now : ℤ) (p : Profile) (hpr : pr.Valid)
    (hmodel : ∀ m, model = some m → ∀ v : List ℚ, 0 ≤ m.predict v ∧ m.predict v ≤ 1) :
    (0 ≤ (content_analyze pr p).sentiment_score
      ∧ (content_analyze pr p).sentiment_score ≤ 1)
  ∧ (0 ≤ (content_analyze pr p).content_diversity
      ∧ (content_analyze pr p).content_diversity ≤ 1)
  ∧ (0 ≤ (content_analyze pr p).suspicious_content_score
      ∧ (content_analyze pr p).suspicious_content_score ≤ 1)
  ∧ (0 ≤ (activity_analyze pr now p).posting_regularity
      ∧ (activity_analyze pr now p).posting_regularity ≤ 1)
  ∧ (0 ≤ (activity_analyze pr now p).time_zone_consistency
      ∧ (activity_analyze pr now p).time_zone_consistency ≤ 1)
  ∧ (0 ≤ (activity_analyze pr now p).engagement_rate
      ∧ (activity_analyze pr now p).engagement_rate ≤ 1)
  ∧ (0 ≤ (activity_analyze pr now p).activity_score
      ∧ (activity_analyze pr now p).activity_score ≤ 1)
  ∧ (0 ≤ (image_analyze pr p).profile_pic_score
      ∧ (image_analyze pr p).profile_pic_score ≤ 1)
  ∧ (0 ≤ (network_analyze p).network_isolation_score
      ∧ (network_analyze p).network_isolation_score ≤ 1)
  ∧ (0 ≤ (network_analyze p).mutual_connection_ratio
      ∧ (network_analyze p).mutual_connection_ratio ≤ 1)
  ∧ (0 ≤ (network_analyze p).clustering_coefficient
      ∧ (network_analyze p).clustering_coefficient ≤ 1)
  ∧ (0 ≤ (network_analyze p).reciprocity ∧ (network_analyze p).reciprocity ≤ 1)
  ∧ (0 ≤ (network_analyze p).network_score ∧ (network_analyze p).network_score ≤ 1)
  ∧ (0 ≤ probabilityOf (analyze_profile pr model now p)
      ∧ probabilityOf (analyze_profile pr model now p) ≤ 1) := by
  obtain ⟨hex, hrnd⟩ := hpr
  have hc := content_analyze_mem pr p
  have ha := activity_analyze_mem pr hex now p
  have hi := image_analyze_mem pr hrnd p
  have hn := network_analyze_mem p
  refine ⟨hc.1, hc.2.1, hc.2.2, ha.1, ha.2.1, ha.2.2.1, ha.2.2.2, hi,
    hn.1, hn.2.1, hn.2.2.1, hn.2.2.2.1, hn.2.2.2.2, ?_⟩
  unfold analyze_profile
  cases hcf : combined_features pr now p with
  | error e =>
    simp only [probabilityOf]
    norm_num
  | ok combined =>
    cases model with
    | some m =>
      simp only [probabilityOf]
      exact hmodel m rfl _
    | none =>
      simp only [probabilityOf]
      exact heuristic_probability_mem combined

/-- C2 witness: the hypotheses of the theorem hold for the concrete
primitive instantiation and the absent classifier, and the theorem applies
at a concrete profile. -/
theorem C2_witness :
    testPrims.Valid
  ∧ (0 ≤ (content_analyze testPrims ({} : Profile)).sentiment_score
      ∧ (content_analyze testPrims ({} : Profile)).sentiment_score ≤ 1)
  ∧ (0 ≤ probabilityOf (analyze_profile testPrims none 0 ({} : Profile))
      ∧ probabilityOf (analyze_profile testPrims none 0 ({} : Profile)) ≤ 1) :=
  ⟨testPrims_valid,
   (C2_scores_in_unit_interval testPrims none 0 ({} : Profile) testPrims_valid
     (fun m h => nomatch h)).1,
   (C2_scores_in_unit_interval testPrims none 0 ({} : Profile) testPrims_valid
     (fun m h => nomatch h)).2.2.2.2.2.2.2.2.2.2.2.2.2⟩
